import Mathlib

/-!
Shallow embedding of the class-file decoder in `src/classfile.rs`
(Rust).  Bytes are modelled as `Nat` (each byte of a real buffer is
below 256; the reader never fabricates values, it only returns bytes of
the buffer).  Machine integers `u16`/`u32` become `Nat` built from the
big-endian byte arithmetic of the source; `i64`/`f32`/`f64` constants
are kept as their raw bit patterns (the decoder never computes with
them).  Fallible Rust functions returning `Result<T, ClassFileError>`
become `Except ClassFileError T`; a `&mut Reader` parameter becomes
explicit reader-state passing, each read returning the value together
with the advanced reader.
-/

namespace Jvmti

/-- Error taxonomy, mirroring `enum ClassFileError`. -/
inductive ClassFileError where
  | UnexpectedEof : ClassFileError
  | InvalidMagic : Nat → ClassFileError
  | InvalidConstantPoolIndex : Nat → ClassFileError
  | InvalidConstantPoolTag : Nat → ClassFileError
  | InvalidUtf8 : ClassFileError
  | InvalidAttribute : String → ClassFileError
  deriving DecidableEq, Repr

/-- `struct Reader` : a byte slice plus a read position. -/
structure Reader where
  data : List Nat
  pos : Nat
  deriving DecidableEq, Repr

/-- `Reader::remaining` : `data.len().saturating_sub(pos)` (`Nat`
subtraction is already saturating). -/
def Reader.remaining (r : Reader) : Nat :=
  r.data.length - r.pos

/-- `Reader::read_u1`. -/
def Reader.read_u1 (r : Reader) : Except ClassFileError (Nat × Reader) :=
  if r.remaining < 1 then .error .UnexpectedEof
  else .ok (r.data.getD r.pos 0, ⟨r.data, r.pos + 1⟩)

/-- `Reader::read_u2` : two bytes, big endian. -/
def Reader.read_u2 (r : Reader) : Except ClassFileError (Nat × Reader) :=
  if r.remaining < 2 then .error .UnexpectedEof
  else .ok (r.data.getD r.pos 0 * 0x100 + r.data.getD (r.pos + 1) 0,
            ⟨r.data, r.pos + 2⟩)

/-- `Reader::read_u4` : four bytes, big endian. -/
def Reader.read_u4 (r : Reader) : Except ClassFileError (Nat × Reader) :=
  if r.remaining < 4 then .error .UnexpectedEof
  else .ok (r.data.getD r.pos 0 * 0x1000000 + r.data.getD (r.pos + 1) 0 * 0x10000 +
              r.data.getD (r.pos + 2) 0 * 0x100 + r.data.getD (r.pos + 3) 0,
            ⟨r.data, r.pos + 4⟩)

/-- `Reader::read_bytes` : the sub-slice `data[pos..pos+len]`. -/
def Reader.read_bytes (r : Reader) (len : Nat) :
    Except ClassFileError (List Nat × Reader) :=
  if r.remaining < len then .error .UnexpectedEof
  else .ok ((r.data.drop r.pos).take len, ⟨r.data, r.pos + len⟩)

/-- The Unicode replacement character U+FFFD used by lossy decoding. -/
def replChar : Char := Char.ofNat 0xFFFD

/-- First-continuation-byte constraint of a three-byte UTF-8 sequence
(excludes overlong encodings for lead `E0` and surrogates for lead `ED`). -/
def utf8Cont3First (b0 b1 : Nat) : Bool :=
  if b0 = 0xE0 then decide (0xA0 ≤ b1 ∧ b1 < 0xC0)
  else if b0 = 0xED then decide (0x80 ≤ b1 ∧ b1 < 0xA0)
  else decide (0x80 ≤ b1 ∧ b1 < 0xC0)

/-- First-continuation-byte constraint of a four-byte UTF-8 sequence
(excludes overlong encodings for lead `F0` and values above U+10FFFF
for lead `F4`). -/
def utf8Cont4First (b0 b1 : Nat) : Bool :=
  if b0 = 0xF0 then decide (0x90 ≤ b1 ∧ b1 < 0xC0)
  else if b0 = 0xF4 then decide (0x80 ≤ b1 ∧ b1 < 0x90)
  else decide (0x80 ≤ b1 ∧ b1 < 0xC0)

mutual

/-- `String::from_utf8_lossy`, character by character: valid UTF-8
sequences decode to their scalar value, each maximal prefix of an
invalid or truncated sequence becomes one U+FFFD, and decoding resumes
at the first offending byte.  Total: no input ever fails.  The helpers
below handle the continuation bytes of 2-, 3- and 4-byte sequences. -/
def utf8DecodeLossy : List Nat → List Char
  | [] => []
  | b0 :: rest =>
    if b0 < 0x80 then Char.ofNat b0 :: utf8DecodeLossy rest
    else if b0 < 0xC2 then replChar :: utf8DecodeLossy rest
    else if b0 < 0xE0 then utf8Dec2 b0 rest
    else if b0 < 0xF0 then utf8Dec3 b0 rest
    else if b0 < 0xF5 then utf8Dec4 b0 rest
    else replChar :: utf8DecodeLossy rest
  termination_by l => (l.length, 0)

/-- Continuation of a two-byte sequence with lead byte `b0`. -/
def utf8Dec2 (b0 : Nat) : List Nat → List Char
  | [] => [replChar]
  | b1 :: rest1 =>
    if 0x80 ≤ b1 ∧ b1 < 0xC0 then
      Char.ofNat (b0 % 0x20 * 0x40 + b1 % 0x40) :: utf8DecodeLossy rest1
    else replChar :: utf8DecodeLossy (b1 :: rest1)
  termination_by l => (l.length, 1)

/-- Continuation of a three-byte sequence with lead byte `b0`. -/
def utf8Dec3 (b0 : Nat) : List Nat → List Char
  | [] => [replChar]
  | b1 :: rest1 =>
    if utf8Cont3First b0 b1 then utf8Dec3b b0 b1 rest1
    else replChar :: utf8DecodeLossy (b1 :: rest1)
  termination_by l => (l.length, 2)

/-- Final byte of a three-byte sequence `b0 b1 _`. -/
def utf8Dec3b (b0 b1 : Nat) : List Nat → List Char
  | [] => [replChar]
  | b2 :: rest2 =>
    if 0x80 ≤ b2 ∧ b2 < 0xC0 then
      Char.ofNat (b0 % 0x10 * 0x1000 + b1 % 0x40 * 0x40 + b2 % 0x40) ::
        utf8DecodeLossy rest2
    else replChar :: utf8DecodeLossy (b2 :: rest2)
  termination_by l => (l.length, 1)

/-- Continuation of a four-byte sequence with lead byte `b0`. -/
def utf8Dec4 (b0 : Nat) : List Nat → List Char
  | [] => [replChar]
  | b1 :: rest1 =>
    if utf8Cont4First b0 b1 then utf8Dec4b b0 b1 rest1
    else replChar :: utf8DecodeLossy (b1 :: rest1)
  termination_by l => (l.length, 3)

/-- Third byte of a four-byte sequence `b0 b1 _ _`. -/
def utf8Dec4b (b0 b1 : Nat) : List Nat → List Char
  | [] => [replChar]
  | b2 :: rest2 =>
    if 0x80 ≤ b2 ∧ b2 < 0xC0 then utf8Dec4c b0 b1 b2 rest2
    else replChar :: utf8DecodeLossy (b2 :: rest2)
  termination_by l => (l.length, 2)

/-- Final byte of a four-byte sequence `b0 b1 b2 _`. -/
def utf8Dec4c (b0 b1 b2 : Nat) : List Nat → List Char
  | [] => [replChar]
  | b3 :: rest3 =>
    if 0x80 ≤ b3 ∧ b3 < 0xC0 then
      Char.ofNat (b0 % 8 * 0x40000 + b1 % 0x40 * 0x1000 +
          b2 % 0x40 * 0x40 + b3 % 0x40) :: utf8DecodeLossy rest3
    else replChar :: utf8DecodeLossy (b3 :: rest3)
  termination_by l => (l.length, 1)

end

/-- `String::from_utf8_lossy(bytes).to_string()`. -/
def utf8Lossy (bs : List Nat) : String :=
  String.mk (utf8DecodeLossy bs)

/-- `enum CpInfo`.  `Integer`/`Float`/`Long`/`Double` keep the raw bit
pattern assembled by the parser (the parser itself only reinterprets
bits and never computes with the numeric value). -/
inductive CpInfo where
  | Utf8 : String → CpInfo
  | Integer : Nat → CpInfo
  | Float : Nat → CpInfo
  | Long : Nat → CpInfo
  | Double : Nat → CpInfo
  | Class : Nat → CpInfo
  | String : Nat → CpInfo
  | Fieldref : Nat → Nat → CpInfo
  | Methodref : Nat → Nat → CpInfo
  | InterfaceMethodref : Nat → Nat → CpInfo
  | NameAndType : Nat → Nat → CpInfo
  | MethodHandle : Nat → Nat → CpInfo
  | MethodType : Nat → CpInfo
  | Dynamic : Nat → Nat → CpInfo
  | InvokeDynamic : Nat → Nat → CpInfo
  | Module : Nat → CpInfo
  | Package : Nat → CpInfo
  deriving DecidableEq, Repr

/-- `struct ConstantPool`. -/
structure ConstantPool where
  entries : List (Option CpInfo)
  deriving DecidableEq, Repr

/-- `ConstantPool::get` : index 0, an out-of-range index, and a `None`
hole all fail with `InvalidConstantPoolIndex(index)`. -/
def ConstantPool.get (cp : ConstantPool) (index : Nat) :
    Except ClassFileError CpInfo :=
  if index = 0 then .error (.InvalidConstantPoolIndex index)
  else
    match cp.entries[index]? with
    | some (some e) => .ok e
    | _ => .error (.InvalidConstantPoolIndex index)

/-- `ConstantPool::get_utf8` : resolve via `get`, then require a `Utf8`
variant; anything else fails with `InvalidConstantPoolIndex(index)`. -/
def ConstantPool.get_utf8 (cp : ConstantPool) (index : Nat) :
    Except ClassFileError String :=
  match cp.get index with
  | .error e => .error e
  | .ok (.Utf8 s) => .ok s
  | .ok _ => .error (.InvalidConstantPoolIndex index)

/-- `enum VerificationTypeInfo`. -/
inductive VerificationTypeInfo where
  | Top | Integer | Float | Double | Long | Null | UninitializedThis
  | Object : Nat → VerificationTypeInfo
  | Uninitialized : Nat → VerificationTypeInfo
  deriving DecidableEq, Repr

/-- `enum StackMapFrame`. -/
inductive StackMapFrame where
  | Same (offset_delta : Nat)
  | SameLocals1StackItem (offset_delta : Nat) (stack : VerificationTypeInfo)
  | SameLocals1StackItemExtended (offset_delta : Nat) (stack : VerificationTypeInfo)
  | Chop (offset_delta : Nat) (k : Nat)
  | SameExtended (offset_delta : Nat)
  | Append (offset_delta : Nat) (locals : List VerificationTypeInfo)
  | Full (offset_delta : Nat) (locals : List VerificationTypeInfo)
      (stack : List VerificationTypeInfo)
  deriving DecidableEq, Repr

/-- `struct StackMapTableAttribute`. -/
structure StackMapTableAttribute where
  entries : List StackMapFrame
  deriving DecidableEq, Repr

/-- `struct ExceptionTableEntry`. -/
structure ExceptionTableEntry where
  start_pc : Nat
  end_pc : Nat
  handler_pc : Nat
  catch_type : Nat
  deriving DecidableEq, Repr

/-- `struct LineNumberEntry`. -/
structure LineNumberEntry where
  start_pc : Nat
  line_number : Nat
  deriving DecidableEq, Repr

/-- `struct LocalVariableTableEntry`. -/
structure LocalVariableTableEntry where
  start_pc : Nat
  length : Nat
  name_index : Nat
  descriptor_index : Nat
  index : Nat
  deriving DecidableEq, Repr

/-- `struct LocalVariableTypeTableEntry`. -/
structure LocalVariableTypeTableEntry where
  start_pc : Nat
  length : Nat
  name_index : Nat
  signature_index : Nat
  index : Nat
  deriving DecidableEq, Repr

/-- `struct InnerClassInfo`. -/
structure InnerClassInfo where
  inner_class_info_index : Nat
  outer_class_info_index : Nat
  inner_name_index : Nat
  inner_class_access_flags : Nat
  deriving DecidableEq, Repr

/-- `struct LocalVarTarget`. -/
structure LocalVarTarget where
  start_pc : Nat
  length : Nat
  index : Nat
  deriving DecidableEq, Repr

/-- `struct TypePathEntry`. -/
structure TypePathEntry where
  type_path_kind : Nat
  type_argument_index : Nat
  deriving DecidableEq, Repr

/-- `enum TargetInfo`. -/
inductive TargetInfo where
  | TypeParameter (index : Nat)
  | Supertype (index : Nat)
  | TypeParameterBound (type_parameter_index : Nat) (bound_index : Nat)
  | Empty
  | FormalParameter (index : Nat)
  | Throws (index : Nat)
  | Localvar (table : List LocalVarTarget)
  | Catch (exception_table_index : Nat)
  | Offset (offset : Nat)
  | TypeArgument (offset : Nat) (type_argument_index : Nat)
  deriving DecidableEq, Repr

/-- `struct BootstrapMethod`. -/
structure BootstrapMethod where
  bootstrap_method_ref : Nat
  bootstrap_arguments : List Nat
  deriving DecidableEq, Repr

/-- `struct MethodParameter`. -/
structure MethodParameter where
  name_index : Nat
  access_flags : Nat
  deriving DecidableEq, Repr

/-- `struct ModuleRequires`. -/
structure ModuleRequires where
  requires_index : Nat
  requires_flags : Nat
  requires_version_index : Nat
  deriving DecidableEq, Repr

/-- `struct ModuleExports`. -/
structure ModuleExports where
  exports_index : Nat
  exports_flags : Nat
  exports_to : List Nat
  deriving DecidableEq, Repr

/-- `struct ModuleOpens`. -/
structure ModuleOpens where
  opens_index : Nat
  opens_flags : Nat
  opens_to : List Nat
  deriving DecidableEq, Repr

/-- `struct ModuleProvides`. -/
structure ModuleProvides where
  provides_index : Nat
  provides_with : List Nat
  deriving DecidableEq, Repr

/-- `struct ModuleHash`. -/
structure ModuleHash where
  module_name_index : Nat
  hash : List Nat
  deriving DecidableEq, Repr

/-- `struct ModuleAttribute`. -/
structure ModuleAttribute where
  module_name_index : Nat
  module_flags : Nat
  module_version_index : Nat
  requires : List ModuleRequires
  exports : List ModuleExports
  opens : List ModuleOpens
  uses : List Nat
  provides : List ModuleProvides
  deriving DecidableEq, Repr

mutual

/-- `struct Annotation` (renamed: `AnnotationItem`).  A type index plus
its element-value pairs. -/
inductive AnnotationItem where
  | mk (type_index : Nat) (element_value_pairs : List ElementValuePair)

/-- `struct ElementValuePair`. -/
inductive ElementValuePair where
  | mk (element_name_index : Nat) (value : ElementValue)

/-- `enum ElementValue`. -/
inductive ElementValue where
  | Const (tag : Nat) (const_value_index : Nat)
  | EnumConst (type_name_index : Nat) (const_name_index : Nat)
  | ClassInfo (class_info_index : Nat)
  | AnnotationValue (a : AnnotationItem)
  | ArrayValue (values : List ElementValue)

end

/-- `struct TypeAnnotation` (renamed: `TypeAnnotationItem`). -/
structure TypeAnnotationItem where
  target_type : Nat
  target_info : TargetInfo
  target_path : List TypePathEntry
  type_index : Nat
  element_value_pairs : List ElementValuePair

mutual

/-- `struct CodeAttribute`. -/
inductive CodeAttribute where
  | mk (max_stack : Nat) (max_locals : Nat) (code : List Nat)
      (exception_table : List ExceptionTableEntry)
      (attributes : List AttributeInfo)

/-- `struct RecordComponent`. -/
inductive RecordComponent where
  | mk (name_index : Nat) (descriptor_index : Nat)
      (attributes : List AttributeInfo)

/-- `enum AttributeInfo`. -/
inductive AttributeInfo where
  | ConstantValue (constantvalue_index : Nat)
  | Code (c : CodeAttribute)
  | StackMapTable (t : StackMapTableAttribute)
  | Exceptions (exception_index_table : List Nat)
  | InnerClasses (classes : List InnerClassInfo)
  | EnclosingMethod (class_index : Nat) (method_index : Nat)
  | Synthetic
  | Signature (signature_index : Nat)
  | SourceFile (sourcefile_index : Nat)
  | SourceDebugExtension (debug_extension : List Nat)
  | LineNumberTable (entries : List LineNumberEntry)
  | LocalVariableTable (entries : List LocalVariableTableEntry)
  | LocalVariableTypeTable (entries : List LocalVariableTypeTableEntry)
  | Deprecated
  | RuntimeVisibleAnnotations (annotations : List AnnotationItem)
  | RuntimeInvisibleAnnotations (annotations : List AnnotationItem)
  | RuntimeVisibleParameterAnnotations
      (parameter_annotations : List (List AnnotationItem))
  | RuntimeInvisibleParameterAnnotations
      (parameter_annotations : List (List AnnotationItem))
  | RuntimeVisibleTypeAnnotations (annotations : List TypeAnnotationItem)
  | RuntimeInvisibleTypeAnnotations (annotations : List TypeAnnotationItem)
  | AnnotationDefault (default_value : ElementValue)
  | BootstrapMethods (methods : List BootstrapMethod)
  | MethodParameters (parameters : List MethodParameter)
  | Module (m : ModuleAttribute)
  | ModulePackages (packages : List Nat)
  | ModuleMainClass (main_class_index : Nat)
  | ModuleHashes (algorithm_index : Nat) (modules : List ModuleHash)
  | ModuleTarget (target_platform_index : Nat)
  | ModuleResolution (resolution_flags : Nat)
  | NestHost (host_class_index : Nat)
  | NestMembers (classes : List Nat)
  | Record (components : List RecordComponent)
  | PermittedSubclasses (classes : List Nat)
  | Unknown (name : String) (info : List Nat)

end

/-- `struct FieldInfo`. -/
structure FieldInfo where
  access_flags : Nat
  name_index : Nat
  descriptor_index : Nat
  attributes : List AttributeInfo

/-- `struct MethodInfo`. -/
structure MethodInfo where
  access_flags : Nat
  name_index : Nat
  descriptor_index : Nat
  attributes : List AttributeInfo

/-- `struct ClassFile`. -/
structure ClassFile where
  minor_version : Nat
  major_version : Nat
  constant_pool : ConstantPool
  access_flags : Nat
  this_class : Nat
  super_class : Nat
  interfaces : List Nat
  fields : List FieldInfo
  methods : List MethodInfo
  attributes : List AttributeInfo

/-! Parsers.  `for _ in 0..n { push(parse_entry()) }` loops of the
source become `readCount parse_entry n`; integer and string `match`
arms become `if`-chains testing the same values in the same order. -/

/-- A count-prefixed loop body: run `p` exactly `n` times, collecting
the results in order and threading the reader. -/
def readCount {α : Type} (p : Reader → Except ClassFileError (α × Reader)) :
    Nat → Reader → Except ClassFileError (List α × Reader)
  | 0, r => .ok ([], r)
  | n + 1, r => do
    let (x, r1) ← p r
    let (xs, r2) ← readCount p n r1
    .ok (x :: xs, r2)

/-- `parse_verification_type_info`. -/
def parse_verification_type_info (r : Reader) :
    Except ClassFileError (VerificationTypeInfo × Reader) := do
  let (tag, r1) ← r.read_u1
  if tag = 0 then .ok (.Top, r1)
  else if tag = 1 then .ok (.Integer, r1)
  else if tag = 2 then .ok (.Float, r1)
  else if tag = 3 then .ok (.Double, r1)
  else if tag = 4 then .ok (.Long, r1)
  else if tag = 5 then .ok (.Null, r1)
  else if tag = 6 then .ok (.UninitializedThis, r1)
  else if tag = 7 then do
    let (i, r2) ← r1.read_u2
    .ok (.Object i, r2)
  else if tag = 8 then do
    let (i, r2) ← r1.read_u2
    .ok (.Uninitialized i, r2)
  else .error (.InvalidAttribute "StackMapTable")

/-- The per-frame `match frame_type` body of `parse_stack_map_table`:
the u1 `frame_type` has already been read, `r` holds the trailing
fields. -/
def parseStackMapFrame (frame_type : Nat) (r : Reader) :
    Except ClassFileError (StackMapFrame × Reader) :=
  if frame_type ≤ 63 then .ok (.Same frame_type, r)
  else if frame_type ≤ 127 then do
    let (stack, r1) ← parse_verification_type_info r
    .ok (.SameLocals1StackItem (frame_type - 64) stack, r1)
  else if frame_type = 247 then do
    let (offset_delta, r1) ← r.read_u2
    let (stack, r2) ← parse_verification_type_info r1
    .ok (.SameLocals1StackItemExtended offset_delta stack, r2)
  else if 248 ≤ frame_type ∧ frame_type ≤ 250 then do
    let (offset_delta, r1) ← r.read_u2
    .ok (.Chop offset_delta (251 - frame_type), r1)
  else if frame_type = 251 then do
    let (offset_delta, r1) ← r.read_u2
    .ok (.SameExtended offset_delta, r1)
  else if 252 ≤ frame_type ∧ frame_type ≤ 254 then do
    let (offset_delta, r1) ← r.read_u2
    let (locals, r2) ← readCount parse_verification_type_info (frame_type - 251) r1
    .ok (.Append offset_delta locals, r2)
  else if frame_type = 255 then do
    let (offset_delta, r1) ← r.read_u2
    let (num_locals, r2) ← r1.read_u2
    let (locals, r3) ← readCount parse_verification_type_info num_locals r2
    let (num_stack, r4) ← r3.read_u2
    let (stack, r5) ← readCount parse_verification_type_info num_stack r4
    .ok (.Full offset_delta locals stack, r5)
  else .error (.InvalidAttribute "StackMapTable")

/-- `parse_stack_map_table`. -/
def parse_stack_map_table (r : Reader) :
    Except ClassFileError (StackMapTableAttribute × Reader) := do
  let (num, r1) ← r.read_u2
  let (entries, r2) ← readCount
      (fun rr => do
        let (frame_type, rr1) ← rr.read_u1
        parseStackMapFrame frame_type rr1)
      num r1
  .ok (⟨entries⟩, r2)

/-- `parse_type_path`. -/
def parse_type_path (r : Reader) :
    Except ClassFileError (List TypePathEntry × Reader) := do
  let (path_length, r1) ← r.read_u1
  readCount
    (fun rr => do
      let (type_path_kind, rr1) ← rr.read_u1
      let (type_argument_index, rr2) ← rr1.read_u1
      .ok (TypePathEntry.mk type_path_kind type_argument_index, rr2))
    path_length r1

/-- One entry of a `Localvar` target table. -/
def parseLocalVarTarget (r : Reader) :
    Except ClassFileError (LocalVarTarget × Reader) := do
  let (start_pc, r1) ← r.read_u2
  let (length, r2) ← r1.read_u2
  let (index, r3) ← r2.read_u2
  .ok (LocalVarTarget.mk start_pc length index, r3)

/-- `parse_target_info`. -/
def parse_target_info (r : Reader) (target_type : Nat) :
    Except ClassFileError (TargetInfo × Reader) :=
  if target_type = 0x00 ∨ target_type = 0x01 then do
    let (index, r1) ← r.read_u1
    .ok (.TypeParameter index, r1)
  else if target_type = 0x10 then do
    let (index, r1) ← r.read_u2
    .ok (.Supertype index, r1)
  else if target_type = 0x11 ∨ target_type = 0x12 then do
    let (type_parameter_index, r1) ← r.read_u1
    let (bound_index, r2) ← r1.read_u1
    .ok (.TypeParameterBound type_parameter_index bound_index, r2)
  else if target_type = 0x13 ∨ target_type = 0x14 ∨ target_type = 0x15 then
    .ok (.Empty, r)
  else if target_type = 0x16 then do
    let (index, r1) ← r.read_u1
    .ok (.FormalParameter index, r1)
  else if target_type = 0x17 then do
    let (index, r1) ← r.read_u2
    .ok (.Throws index, r1)
  else if target_type = 0x40 ∨ target_type = 0x41 then do
    let (table_length, r1) ← r.read_u2
    let (table, r2) ← readCount parseLocalVarTarget table_length r1
    .ok (.Localvar table, r2)
  else if target_type = 0x42 then do
    let (exception_table_index, r1) ← r.read_u2
    .ok (.Catch exception_table_index, r1)
  else if target_type = 0x43 ∨ target_type = 0x44 ∨ target_type = 0x45 ∨
      target_type = 0x46 then do
    let (offset, r1) ← r.read_u2
    .ok (.Offset offset, r1)
  else if target_type = 0x47 ∨ target_type = 0x48 ∨ target_type = 0x49 ∨
      target_type = 0x4A ∨ target_type = 0x4B then do
    let (offset, r1) ← r.read_u2
    let (type_argument_index, r2) ← r1.read_u1
    .ok (.TypeArgument offset type_argument_index, r2)
  else .error (.InvalidAttribute "type_annotation")

/-- One entry of the `requires` table of `parse_module_attribute`. -/
def parseModuleRequires (r : Reader) :
    Except ClassFileError (ModuleRequires × Reader) := do
  let (requires_index, r1) ← r.read_u2
  let (requires_flags, r2) ← r1.read_u2
  let (requires_version_index, r3) ← r2.read_u2
  .ok (ModuleRequires.mk requires_index requires_flags requires_version_index, r3)

/-- One entry of the `exports` table of `parse_module_attribute`. -/
def parseModuleExports (r : Reader) :
    Except ClassFileError (ModuleExports × Reader) := do
  let (exports_index, r1) ← r.read_u2
  let (exports_flags, r2) ← r1.read_u2
  let (exports_to_count, r3) ← r2.read_u2
  let (exports_to, r4) ← readCount Reader.read_u2 exports_to_count r3
  .ok (ModuleExports.mk exports_index exports_flags exports_to, r4)

/-- One entry of the `opens` table of `parse_module_attribute`. -/
def parseModuleOpens (r : Reader) :
    Except ClassFileError (ModuleOpens × Reader) := do
  let (opens_index, r1) ← r.read_u2
  let (opens_flags, r2) ← r1.read_u2
  let (opens_to_count, r3) ← r2.read_u2
  let (opens_to, r4) ← readCount Reader.read_u2 opens_to_count r3
  .ok (ModuleOpens.mk opens_index opens_flags opens_to, r4)

/-- One entry of the `provides` table of `parse_module_attribute`. -/
def parseModuleProvides (r : Reader) :
    Except ClassFileError (ModuleProvides × Reader) := do
  let (provides_index, r1) ← r.read_u2
  let (provides_with_count, r2) ← r1.read_u2
  let (provides_with, r3) ← readCount Reader.read_u2 provides_with_count r2
  .ok (ModuleProvides.mk provides_index provides_with, r3)

/-- `parse_module_attribute`. -/
def parse_module_attribute (r : Reader) :
    Except ClassFileError (ModuleAttribute × Reader) := do
  let (module_name_index, r1) ← r.read_u2
  let (module_flags, r2) ← r1.read_u2
  let (module_version_index, r3) ← r2.read_u2
  let (requires_count, r4) ← r3.read_u2
  let (requires, r5) ← readCount parseModuleRequires requires_count r4
  let (exports_count, r6) ← r5.read_u2
  let (exports, r7) ← readCount parseModuleExports exports_count r6
  let (opens_count, r8) ← r7.read_u2
  let (opens, r9) ← readCount parseModuleOpens opens_count r8
  let (uses_count, r10) ← r9.read_u2
  let (uses, r11) ← readCount Reader.read_u2 uses_count r10
  let (provides_count, r12) ← r11.read_u2
  let (provides, r13) ← readCount parseModuleProvides provides_count r12
  .ok (ModuleAttribute.mk module_name_index module_flags module_version_index
        requires exports opens uses provides, r13)

/-- The `while i < count` loop of `parse_constant_pool`: read a u1 tag
and dispatch on it; `Long`/`Double` (tags 5/6) push the value plus a
`None` hole and advance the slot index by 2, every other valid tag
pushes one entry and advances by 1; an unknown tag aborts with
`InvalidConstantPoolTag(tag)`. -/
def parseCpEntries (r : Reader) (count i : Nat)
    (entries : List (Option CpInfo)) :
    Except ClassFileError (List (Option CpInfo) × Reader) :=
  if _h : i < count then do
    let (tag, r1) ← r.read_u1
    if tag = 1 then do
      let (len, r2) ← r1.read_u2
      let (bytes, r3) ← r2.read_bytes len
      parseCpEntries r3 count (i + 1) (entries ++ [some (.Utf8 (utf8Lossy bytes))])
    else if tag = 3 then do
      let (v, r2) ← r1.read_u4
      parseCpEntries r2 count (i + 1) (entries ++ [some (.Integer v)])
    else if tag = 4 then do
      let (bits, r2) ← r1.read_u4
      parseCpEntries r2 count (i + 1) (entries ++ [some (.Float bits)])
    else if tag = 5 then do
      let (high, r2) ← r1.read_u4
      let (low, r3) ← r2.read_u4
      parseCpEntries r3 count (i + 2)
        (entries ++ [some (.Long ((high <<< 32) ||| low)), none])
    else if tag = 6 then do
      let (high, r2) ← r1.read_u4
      let (low, r3) ← r2.read_u4
      parseCpEntries r3 count (i + 2)
        (entries ++ [some (.Double ((high <<< 32) ||| low)), none])
    else if tag = 7 then do
      let (name_index, r2) ← r1.read_u2
      parseCpEntries r2 count (i + 1) (entries ++ [some (.Class name_index)])
    else if tag = 8 then do
      let (string_index, r2) ← r1.read_u2
      parseCpEntries r2 count (i + 1) (entries ++ [some (.String string_index)])
    else if tag = 9 then do
      let (class_index, r2) ← r1.read_u2
      let (name_and_type_index, r3) ← r2.read_u2
      parseCpEntries r3 count (i + 1)
        (entries ++ [some (.Fieldref class_index name_and_type_index)])
    else if tag = 10 then do
      let (class_index, r2) ← r1.read_u2
      let (name_and_type_index, r3) ← r2.read_u2
      parseCpEntries r3 count (i + 1)
        (entries ++ [some (.Methodref class_index name_and_type_index)])
    else if tag = 11 then do
      let (class_index, r2) ← r1.read_u2
      let (name_and_type_index, r3) ← r2.read_u2
      parseCpEntries r3 count (i + 1)
        (entries ++ [some (.InterfaceMethodref class_index name_and_type_index)])
    else if tag = 12 then do
      let (name_index, r2) ← r1.read_u2
      let (descriptor_index, r3) ← r2.read_u2
      parseCpEntries r3 count (i + 1)
        (entries ++ [some (.NameAndType name_index descriptor_index)])
    else if tag = 15 then do
      let (reference_kind, r2) ← r1.read_u1
      let (reference_index, r3) ← r2.read_u2
      parseCpEntries r3 count (i + 1)
        (entries ++ [some (.MethodHandle reference_kind reference_index)])
    else if tag = 16 then do
      let (descriptor_index, r2) ← r1.read_u2
      parseCpEntries r2 count (i + 1)
        (entries ++ [some (.MethodType descriptor_index)])
    else if tag = 17 then do
      let (bootstrap_method_attr_index, r2) ← r1.read_u2
      let (name_and_type_index, r3) ← r2.read_u2
      parseCpEntries r3 count (i + 1)
        (entries ++ [some (.Dynamic bootstrap_method_attr_index name_and_type_index)])
    else if tag = 18 then do
      let (bootstrap_method_attr_index, r2) ← r1.read_u2
      let (name_and_type_index, r3) ← r2.read_u2
      parseCpEntries r3 count (i + 1)
        (entries ++
          [some (.InvokeDynamic bootstrap_method_attr_index name_and_type_index)])
    else if tag = 19 then do
      let (name_index, r2) ← r1.read_u2
      parseCpEntries r2 count (i + 1) (entries ++ [some (.Module name_index)])
    else if tag = 20 then do
      let (name_index, r2) ← r1.read_u2
      parseCpEntries r2 count (i + 1) (entries ++ [some (.Package name_index)])
    else .error (.InvalidConstantPoolTag tag)
  else .ok (entries, r)
  termination_by count - i
  decreasing_by all_goals omega

/-- `parse_constant_pool` : read the u2 `count`, seed slot 0 with the
unused `None`, and run the loop from slot index 1. -/
def parse_constant_pool (r : Reader) :
    Except ClassFileError (ConstantPool × Reader) := do
  let (count, r1) ← r.read_u2
  let (entries, r2) ← parseCpEntries r1 count 1 [none]
  .ok (ConstantPool.mk entries, r2)

/-- One entry of an `Exceptions`-style exception table (`u2 × 4`). -/
def parseExceptionTableEntry (r : Reader) :
    Except ClassFileError (ExceptionTableEntry × Reader) := do
  let (start_pc, r1) ← r.read_u2
  let (end_pc, r2) ← r1.read_u2
  let (handler_pc, r3) ← r2.read_u2
  let (catch_type, r4) ← r3.read_u2
  .ok (ExceptionTableEntry.mk start_pc end_pc handler_pc catch_type, r4)

/-- One entry of an `InnerClasses` table. -/
def parseInnerClassInfo (r : Reader) :
    Except ClassFileError (InnerClassInfo × Reader) := do
  let (inner_class_info_index, r1) ← r.read_u2
  let (outer_class_info_index, r2) ← r1.read_u2
  let (inner_name_index, r3) ← r2.read_u2
  let (inner_class_access_flags, r4) ← r3.read_u2
  .ok (InnerClassInfo.mk inner_class_info_index outer_class_info_index
        inner_name_index inner_class_access_flags, r4)

/-- One entry of a `LineNumberTable`. -/
def parseLineNumberEntry (r : Reader) :
    Except ClassFileError (LineNumberEntry × Reader) := do
  let (start_pc, r1) ← r.read_u2
  let (line_number, r2) ← r1.read_u2
  .ok (LineNumberEntry.mk start_pc line_number, r2)

/-- One entry of a `LocalVariableTable`. -/
def parseLocalVariableTableEntry (r : Reader) :
    Except ClassFileError (LocalVariableTableEntry × Reader) := do
  let (start_pc, r1) ← r.read_u2
  let (length, r2) ← r1.read_u2
  let (name_index, r3) ← r2.read_u2
  let (descriptor_index, r4) ← r3.read_u2
  let (index, r5) ← r4.read_u2
  .ok (LocalVariableTableEntry.mk start_pc length name_index descriptor_index
        index, r5)

/-- One entry of a `LocalVariableTypeTable`. -/
def parseLocalVariableTypeTableEntry (r : Reader) :
    Except ClassFileError (LocalVariableTypeTableEntry × Reader) := do
  let (start_pc, r1) ← r.read_u2
  let (length, r2) ← r1.read_u2
  let (name_index, r3) ← r2.read_u2
  let (signature_index, r4) ← r3.read_u2
  let (index, r5) ← r4.read_u2
  .ok (LocalVariableTypeTableEntry.mk start_pc length name_index signature_index
        index, r5)

/-- One entry of a `BootstrapMethods` table. -/
def parseBootstrapMethod (r : Reader) :
    Except ClassFileError (BootstrapMethod × Reader) := do
  let (method_ref, r1) ← r.read_u2
  let (num_args, r2) ← r1.read_u2
  let (args, r3) ← readCount Reader.read_u2 num_args r2
  .ok (BootstrapMethod.mk method_ref args, r3)

/-- One entry of a `MethodParameters` table. -/
def parseMethodParameter (r : Reader) :
    Except ClassFileError (MethodParameter × Reader) := do
  let (name_index, r1) ← r.read_u2
  let (access_flags, r2) ← r1.read_u2
  .ok (MethodParameter.mk name_index access_flags, r2)

/-- One entry of a `ModuleHashes` table. -/
def parseModuleHash (r : Reader) :
    Except ClassFileError (ModuleHash × Reader) := do
  let (module_name_index, r1) ← r.read_u2
  let (hash_len, r2) ← r1.read_u2
  let (hash, r3) ← r2.read_bytes hash_len
  .ok (ModuleHash.mk module_name_index hash, r3)

/-! The recursive part of the decoder.  `parse_attributes` calls
`parse_code_attribute` and the `Record` component loop, which both call
`parse_attributes` back; `parse_element_value` recurses through
annotations and array values.  The shallow embedding makes these
functions structurally recursive on an explicit `fuel` argument that is
decremented at every entry; exhausted fuel yields `UnexpectedEof`.  The
top-level entry point passes fuel that is far larger than the possible
recursion depth for its input, so the exhaustion branch is never taken
on any run the source can perform. -/

mutual

/-- `parse_element_value` : u1 tag dispatch; `BCDFIJSZs` (66, 67, 68,
70, 73, 74, 83, 90, 115) are `Const`, `e` (101) `EnumConst`, `c` (99)
`ClassInfo`, `@` (64) a nested annotation, `[` (91) a u2-counted array
of nested element values; anything else fails. -/
def parse_element_value (fuel : Nat) (r : Reader) :
    Except ClassFileError (ElementValue × Reader) :=
  match fuel with
  | 0 => .error .UnexpectedEof
  | fuel + 1 => do
    let (tag, r1) ← r.read_u1
    if tag = 66 ∨ tag = 67 ∨ tag = 68 ∨ tag = 70 ∨ tag = 73 ∨ tag = 74 ∨
        tag = 83 ∨ tag = 90 ∨ tag = 115 then do
      let (const_value_index, r2) ← r1.read_u2
      .ok (.Const tag const_value_index, r2)
    else if tag = 101 then do
      let (type_name_index, r2) ← r1.read_u2
      let (const_name_index, r3) ← r2.read_u2
      .ok (.EnumConst type_name_index const_name_index, r3)
    else if tag = 99 then do
      let (class_info_index, r2) ← r1.read_u2
      .ok (.ClassInfo class_info_index, r2)
    else if tag = 64 then do
      let (a, r2) ← parse_annotation_item fuel r1
      .ok (.AnnotationValue a, r2)
    else if tag = 91 then do
      let (num_values, r2) ← r1.read_u2
      let (values, r3) ← parseElementValues fuel num_values r2
      .ok (.ArrayValue values, r3)
    else .error (.InvalidAttribute "annotation")
  termination_by fuel

/-- The `[` loop of `parse_element_value`. -/
def parseElementValues (fuel : Nat) (n : Nat) (r : Reader) :
    Except ClassFileError (List ElementValue × Reader) :=
  match fuel with
  | 0 => .error .UnexpectedEof
  | fuel + 1 =>
    match n with
    | 0 => .ok ([], r)
    | n + 1 => do
      let (v, r1) ← parse_element_value fuel r
      let (vs, r2) ← parseElementValues fuel n r1
      .ok (v :: vs, r2)
  termination_by fuel

/-- `parse_annotation` : type index plus a u2-counted pair list. -/
def parse_annotation_item (fuel : Nat) (r : Reader) :
    Except ClassFileError (AnnotationItem × Reader) :=
  match fuel with
  | 0 => .error .UnexpectedEof
  | fuel + 1 => do
    let (type_index, r1) ← r.read_u2
    let (num_pairs, r2) ← r1.read_u2
    let (element_value_pairs, r3) ← parseEVPairs fuel num_pairs r2
    .ok (AnnotationItem.mk type_index element_value_pairs, r3)
  termination_by fuel

/-- The element-value-pair loop shared by `parse_annotation` and
`parse_type_annotations`. -/
def parseEVPairs (fuel : Nat) (n : Nat) (r : Reader) :
    Except ClassFileError (List ElementValuePair × Reader) :=
  match fuel with
  | 0 => .error .UnexpectedEof
  | fuel + 1 =>
    match n with
    | 0 => .ok ([], r)
    | n + 1 => do
      let (element_name_index, r1) ← r.read_u2
      let (value, r2) ← parse_element_value fuel r1
      let (rest, r3) ← parseEVPairs fuel n r2
      .ok (ElementValuePair.mk element_name_index value :: rest, r3)
  termination_by fuel

/-- The annotation loop shared by `parse_annotations` and
`parse_parameter_annotations`. -/
def parseAnnotationList (fuel : Nat) (n : Nat) (r : Reader) :
    Except ClassFileError (List AnnotationItem × Reader) :=
  match fuel with
  | 0 => .error .UnexpectedEof
  | fuel + 1 =>
    match n with
    | 0 => .ok ([], r)
    | n + 1 => do
      let (a, r1) ← parse_annotation_item fuel r
      let (rest, r2) ← parseAnnotationList fuel n r1
      .ok (a :: rest, r2)
  termination_by fuel

/-- `parse_annotations` : u2 count of annotations. -/
def parse_annotations (fuel : Nat) (r : Reader) :
    Except ClassFileError (List AnnotationItem × Reader) :=
  match fuel with
  | 0 => .error .UnexpectedEof
  | fuel + 1 => do
    let (num, r1) ← r.read_u2
    parseAnnotationList fuel num r1

/-- The per-parameter loop of `parse_parameter_annotations`. -/
def parseParamAnnList (fuel : Nat) (n : Nat) (r : Reader) :
    Except ClassFileError (List (List AnnotationItem) × Reader) :=
  match fuel with
  | 0 => .error .UnexpectedEof
  | fuel + 1 =>
    match n with
    | 0 => .ok ([], r)
    | n + 1 => do
      let (num, r1) ← r.read_u2
      let (anns, r2) ← parseAnnotationList fuel num r1
      let (rest, r3) ← parseParamAnnList fuel n r2
      .ok (anns :: rest, r3)
  termination_by fuel

/-- `parse_parameter_annotations` : u1 parameter count, then one
u2-counted annotation list per parameter. -/
def parse_parameter_annotations (fuel : Nat) (r : Reader) :
    Except ClassFileError (List (List AnnotationItem) × Reader) :=
  match fuel with
  | 0 => .error .UnexpectedEof
  | fuel + 1 => do
    let (num_parameters, r1) ← r.read_u1
    parseParamAnnList fuel num_parameters r1

/-- The per-annotation loop of `parse_type_annotations`. -/
def parseTypeAnnotationList (fuel : Nat) (n : Nat) (r : Reader) :
    Except ClassFileError (List TypeAnnotationItem × Reader) :=
  match fuel with
  | 0 => .error .UnexpectedEof
  | fuel + 1 =>
    match n with
    | 0 => .ok ([], r)
    | n + 1 => do
      let (target_type, r1) ← r.read_u1
      let (target_info, r2) ← parse_target_info r1 target_type
      let (target_path, r3) ← parse_type_path r2
      let (type_index, r4) ← r3.read_u2
      let (num_pairs, r5) ← r4.read_u2
      let (element_value_pairs, r6) ← parseEVPairs fuel num_pairs r5
      let (rest, r7) ← parseTypeAnnotationList fuel n r6
      .ok (TypeAnnotationItem.mk target_type target_info target_path type_index
            element_value_pairs :: rest, r7)
  termination_by fuel

/-- `parse_type_annotations` : u2 count of type annotations. -/
def parse_type_annotations (fuel : Nat) (r : Reader) :
    Except ClassFileError (List TypeAnnotationItem × Reader) :=
  match fuel with
  | 0 => .error .UnexpectedEof
  | fuel + 1 => do
    let (num, r1) ← r.read_u2
    parseTypeAnnotationList fuel num r1

/-- The `Record` component loop: name index, descriptor index, then a
recursive attribute list per component. -/
def parseRecordComponents (fuel : Nat) (cp : ConstantPool) (n : Nat)
    (r : Reader) : Except ClassFileError (List RecordComponent × Reader) :=
  match fuel with
  | 0 => .error .UnexpectedEof
  | fuel + 1 =>
    match n with
    | 0 => .ok ([], r)
    | n + 1 => do
      let (name_index, r1) ← r.read_u2
      let (descriptor_index, r2) ← r1.read_u2
      let (attributes, r3) ← parse_attributes fuel cp r2
      let (rest, r4) ← parseRecordComponents fuel cp n r3
      .ok (RecordComponent.mk name_index descriptor_index attributes :: rest, r4)
  termination_by fuel

/-- `parse_code_attribute`. -/
def parse_code_attribute (fuel : Nat) (cp : ConstantPool) (r : Reader) :
    Except ClassFileError (CodeAttribute × Reader) :=
  match fuel with
  | 0 => .error .UnexpectedEof
  | fuel + 1 => do
    let (max_stack, r1) ← r.read_u2
    let (max_locals, r2) ← r1.read_u2
    let (code_length, r3) ← r2.read_u4
    let (code, r4) ← r3.read_bytes code_length
    let (exception_table_length, r5) ← r4.read_u2
    let (exception_table, r6) ←
      readCount parseExceptionTableEntry exception_table_length r5
    let (attributes, r7) ← parse_attributes fuel cp r6
    .ok (CodeAttribute.mk max_stack max_locals code exception_table attributes, r7)
  termination_by fuel

/-- The `match name.as_str()` dispatch of `parse_attributes`: decode
one attribute body of the given resolved `name` from the length-bounded
sub-reader `sub`.  Unrecognized names consume all remaining sub-reader
bytes and produce `Unknown{name, info_bytes}` (here `sub.data`, the
carved-out payload slice). -/
def attrDispatch (fuel : Nat) (cp : ConstantPool) (name : String)
    (sub : Reader) : Except ClassFileError (AttributeInfo × Reader) :=
  match fuel with
  | 0 => .error .UnexpectedEof
  | fuel + 1 =>
    if name = "ConstantValue" then do
      let (constantvalue_index, s1) ← sub.read_u2
      .ok (.ConstantValue constantvalue_index, s1)
    else if name = "Code" then do
      let (c, s1) ← parse_code_attribute fuel cp sub
      .ok (.Code c, s1)
    else if name = "StackMapTable" then do
      let (t, s1) ← parse_stack_map_table sub
      .ok (.StackMapTable t, s1)
    else if name = "Exceptions" then do
      let (num, s1) ← sub.read_u2
      let (table, s2) ← readCount Reader.read_u2 num s1
      .ok (.Exceptions table, s2)
    else if name = "InnerClasses" then do
      let (num, s1) ← sub.read_u2
      let (classes, s2) ← readCount parseInnerClassInfo num s1
      .ok (.InnerClasses classes, s2)
    else if name = "EnclosingMethod" then do
      let (class_index, s1) ← sub.read_u2
      let (method_index, s2) ← s1.read_u2
      .ok (.EnclosingMethod class_index method_index, s2)
    else if name = "Synthetic" then .ok (.Synthetic, sub)
    else if name = "Signature" then do
      let (signature_index, s1) ← sub.read_u2
      .ok (.Signature signature_index, s1)
    else if name = "SourceFile" then do
      let (sourcefile_index, s1) ← sub.read_u2
      .ok (.SourceFile sourcefile_index, s1)
    else if name = "SourceDebugExtension" then do
      let (data, s1) ← sub.read_bytes sub.remaining
      .ok (.SourceDebugExtension data, s1)
    else if name = "LineNumberTable" then do
      let (num, s1) ← sub.read_u2
      let (entries, s2) ← readCount parseLineNumberEntry num s1
      .ok (.LineNumberTable entries, s2)
    else if name = "LocalVariableTable" then do
      let (num, s1) ← sub.read_u2
      let (entries, s2) ← readCount parseLocalVariableTableEntry num s1
      .ok (.LocalVariableTable entries, s2)
    else if name = "LocalVariableTypeTable" then do
      let (num, s1) ← sub.read_u2
      let (entries, s2) ← readCount parseLocalVariableTypeTableEntry num s1
      .ok (.LocalVariableTypeTable entries, s2)
    else if name = "Deprecated" then .ok (.Deprecated, sub)
    else if name = "RuntimeVisibleAnnotations" then do
      let (annotations, s1) ← parse_annotations fuel sub
      .ok (.RuntimeVisibleAnnotations annotations, s1)
    else if name = "RuntimeInvisibleAnnotations" then do
      let (annotations, s1) ← parse_annotations fuel sub
      .ok (.RuntimeInvisibleAnnotations annotations, s1)
    else if name = "RuntimeVisibleParameterAnnotations" then do
      let (parameter_annotations, s1) ← parse_parameter_annotations fuel sub
      .ok (.RuntimeVisibleParameterAnnotations parameter_annotations, s1)
    else if name = "RuntimeInvisibleParameterAnnotations" then do
      let (parameter_annotations, s1) ← parse_parameter_annotations fuel sub
      .ok (.RuntimeInvisibleParameterAnnotations parameter_annotations, s1)
    else if name = "RuntimeVisibleTypeAnnotations" then do
      let (annotations, s1) ← parse_type_annotations fuel sub
      .ok (.RuntimeVisibleTypeAnnotations annotations, s1)
    else if name = "RuntimeInvisibleTypeAnnotations" then do
      let (annotations, s1) ← parse_type_annotations fuel sub
      .ok (.RuntimeInvisibleTypeAnnotations annotations, s1)
    else if name = "AnnotationDefault" then do
      let (default_value, s1) ← parse_element_value fuel sub
      .ok (.AnnotationDefault default_value, s1)
    else if name = "BootstrapMethods" then do
      let (num, s1) ← sub.read_u2
      let (methods, s2) ← readCount parseBootstrapMethod num s1
      .ok (.BootstrapMethods methods, s2)
    else if name = "MethodParameters" then do
      let (num, s1) ← sub.read_u1
      let (parameters, s2) ← readCount parseMethodParameter num s1
      .ok (.MethodParameters parameters, s2)
    else if name = "Module" then do
      let (m, s1) ← parse_module_attribute sub
      .ok (.Module m, s1)
    else if name = "ModulePackages" then do
      let (num, s1) ← sub.read_u2
      let (packages, s2) ← readCount Reader.read_u2 num s1
      .ok (.ModulePackages packages, s2)
    else if name = "ModuleMainClass" then do
      let (main_class_index, s1) ← sub.read_u2
      .ok (.ModuleMainClass main_class_index, s1)
    else if name = "ModuleHashes" then do
      let (algorithm_index, s1) ← sub.read_u2
      let (num, s2) ← s1.read_u2
      let (modules, s3) ← readCount parseModuleHash num s2
      .ok (.ModuleHashes algorithm_index modules, s3)
    else if name = "ModuleTarget" then do
      let (target_platform_index, s1) ← sub.read_u2
      .ok (.ModuleTarget target_platform_index, s1)
    else if name = "ModuleResolution" then do
      let (resolution_flags, s1) ← sub.read_u2
      .ok (.ModuleResolution resolution_flags, s1)
    else if name = "NestHost" then do
      let (host_class_index, s1) ← sub.read_u2
      .ok (.NestHost host_class_index, s1)
    else if name = "NestMembers" then do
      let (num, s1) ← sub.read_u2
      let (classes, s2) ← readCount Reader.read_u2 num s1
      .ok (.NestMembers classes, s2)
    else if name = "Record" then do
      let (num, s1) ← sub.read_u2
      let (components, s2) ← parseRecordComponents fuel cp num s1
      .ok (.Record components, s2)
    else if name = "PermittedSubclasses" then do
      let (num, s1) ← sub.read_u2
      let (classes, s2) ← readCount Reader.read_u2 num s1
      .ok (.PermittedSubclasses classes, s2)
    else do
      let (_, s1) ← sub.read_bytes sub.remaining
      .ok (.Unknown name sub.data, s1)
  termination_by fuel

/-- The per-attribute body of `parse_attributes` : read `name_index`
(u2) and `length` (u4), resolve the name through the pool, carve out
`length` bytes as a fresh sub-reader, dispatch on the name, and finally
require the sub-reader to be fully consumed, failing with
`InvalidAttribute(name)` otherwise (for known attributes the source
re-resolves the name from the pool at this point, propagating a lookup
error with `?`). -/
def parseOneAttr (fuel : Nat) (cp : ConstantPool) (r : Reader) :
    Except ClassFileError (AttributeInfo × Reader) :=
  match fuel with
  | 0 => .error .UnexpectedEof
  | fuel + 1 => do
    let (name_index, r1) ← r.read_u2
    let (length, r2) ← r1.read_u4
    let name ← cp.get_utf8 name_index
    let (info_bytes, r3) ← r2.read_bytes length
    let (attr, s1) ← attrDispatch fuel cp name (Reader.mk info_bytes 0)
    if s1.remaining ≠ 0 then
      match attr with
      | .Unknown n _ => .error (.InvalidAttribute n)
      | _ =>
        match cp.get_utf8 name_index with
        | .error e => .error e
        | .ok n2 => .error (.InvalidAttribute n2)
    else .ok (attr, r3)
  termination_by fuel

/-- The `for _ in 0..count` loop of `parse_attributes`. -/
def parseAttrsLoop (fuel : Nat) (cp : ConstantPool) (n : Nat) (r : Reader) :
    Except ClassFileError (List AttributeInfo × Reader) :=
  match fuel with
  | 0 => .error .UnexpectedEof
  | fuel + 1 =>
    match n with
    | 0 => .ok ([], r)
    | n + 1 => do
      let (attr, r1) ← parseOneAttr fuel cp r
      let (rest, r2) ← parseAttrsLoop fuel cp n r1
      .ok (attr :: rest, r2)
  termination_by fuel

/-- `parse_attributes` : u2 attribute count, then that many attributes. -/
def parse_attributes (fuel : Nat) (cp : ConstantPool) (r : Reader) :
    Except ClassFileError (List AttributeInfo × Reader) :=
  match fuel with
  | 0 => .error .UnexpectedEof
  | fuel + 1 => do
    let (count, r1) ← r.read_u2
    parseAttrsLoop fuel cp count r1
  termination_by fuel

end

/-- `parse_field`. -/
def parse_field (fuel : Nat) (cp : ConstantPool) (r : Reader) :
    Except ClassFileError (FieldInfo × Reader) := do
  let (access_flags, r1) ← r.read_u2
  let (name_index, r2) ← r1.read_u2
  let (descriptor_index, r3) ← r2.read_u2
  let (attributes, r4) ← parse_attributes fuel cp r3
  .ok (FieldInfo.mk access_flags name_index descriptor_index attributes, r4)

/-- `parse_method`. -/
def parse_method (fuel : Nat) (cp : ConstantPool) (r : Reader) :
    Except ClassFileError (MethodInfo × Reader) := do
  let (access_flags, r1) ← r.read_u2
  let (name_index, r2) ← r1.read_u2
  let (descriptor_index, r3) ← r2.read_u2
  let (attributes, r4) ← parse_attributes fuel cp r3
  .ok (MethodInfo.mk access_flags name_index descriptor_index attributes, r4)

/-- `ClassFile::parse`.  The fuel `4 * |bytes| + 16` strictly dominates
the recursion depth any parse of `bytes` can reach (every cycle through
the recursive parsers consumes input bytes), so the fuel-exhaustion
branch is unreachable from this entry point. -/
def ClassFile.parse (bytes : List Nat) : Except ClassFileError ClassFile := do
  let fuel := 4 * bytes.length + 16
  let r : Reader := ⟨bytes, 0⟩
  let (magic, r1) ← r.read_u4
  if magic ≠ 0xCAFEBABE then .error (.InvalidMagic magic)
  else do
    let (minor_version, r2) ← r1.read_u2
    let (major_version, r3) ← r2.read_u2
    let (constant_pool, r4) ← parse_constant_pool r3
    let (access_flags, r5) ← r4.read_u2
    let (this_class, r6) ← r5.read_u2
    let (super_class, r7) ← r6.read_u2
    let (interfaces_count, r8) ← r7.read_u2
    let (interfaces, r9) ← readCount Reader.read_u2 interfaces_count r8
    let (fields_count, r10) ← r9.read_u2
    let (fields, r11) ← readCount (parse_field fuel constant_pool) fields_count r10
    let (methods_count, r12) ← r11.read_u2
    let (methods, r13) ←
      readCount (parse_method fuel constant_pool) methods_count r12
    let (attributes, _) ← parse_attributes fuel constant_pool r13
    .ok (ClassFile.mk minor_version major_version constant_pool access_flags
          this_class super_class interfaces fields methods attributes)

/-! Helper lemmas about the `Except` monad and the reader. -/

theorem ok_bind {α β : Type} (a : α) (f : α → Except ClassFileError β) :
    (Except.ok a >>= f) = f a := rfl

theorem error_bind {α β : Type} (e : ClassFileError)
    (f : α → Except ClassFileError β) :
    ((Except.error e : Except ClassFileError α) >>= f) = .error e := rfl

theorem bind_ok_inv {α β : Type} {x : Except ClassFileError α}
    {f : α → Except ClassFileError β} {y : β} (h : (x >>= f) = .ok y) :
    ∃ a, x = .ok a ∧ f a = .ok y := by
  cases x with
  | error e => exact absurd h (by simp [error_bind])
  | ok a => exact ⟨a, rfl, h⟩

/-- Every error that `ConstantPool::get` can produce is
`InvalidConstantPoolIndex` at the queried index. -/
theorem get_error_kind {cp : ConstantPool} {index : Nat} {e : ClassFileError}
    (h : cp.get index = .error e) : e = .InvalidConstantPoolIndex index := by
  unfold ConstantPool.get at h
  split at h
  · exact (Except.error.inj h).symm
  · split at h
    · exact absurd h (by simp)
    · exact (Except.error.inj h).symm

/-- Every error that `ConstantPool::get_utf8` can produce is
`InvalidConstantPoolIndex` at the queried index. -/
theorem get_utf8_error_kind_aux {cp : ConstantPool} {index : Nat}
    {e : ClassFileError} (h : cp.get_utf8 index = .error e) :
    e = .InvalidConstantPoolIndex index := by
  unfold ConstantPool.get_utf8 at h
  split at h
  · rename_i e1 heq
    obtain rfl : e1 = e := Except.error.inj h
    exact get_error_kind heq
  · exact absurd h (by simp)
  · exact (Except.error.inj h).symm

/-- C9: for every pool and index, `get_utf8` fails with
`InvalidConstantPoolIndex(index)` whenever `get` resolves the index to
a non-`Utf8` entry; it succeeds with `s` exactly when `get` succeeds
with `Utf8 s`; and every error it returns is
`InvalidConstantPoolIndex(index)` (never `InvalidUtf8`). -/
theorem get_utf8_error_kind (cp : ConstantPool) (index : Nat) :
    (∀ e, cp.get index = .ok e → (∀ s, e ≠ .Utf8 s) →
      cp.get_utf8 index = .error (.InvalidConstantPoolIndex index)) ∧
    (∀ s, cp.get_utf8 index = .ok s ↔ cp.get index = .ok (.Utf8 s)) ∧
    (∀ e, cp.get_utf8 index = .error e → e = .InvalidConstantPoolIndex index) := by
  refine ⟨?_, ?_, fun e h => get_utf8_error_kind_aux h⟩
  · intro e hget hne
    unfold ConstantPool.get_utf8
    rw [hget]
    cases e with
    | Utf8 s => exact absurd rfl (hne s)
    | _ => rfl
  · intro s
    unfold ConstantPool.get_utf8
    constructor
    · intro h
      split at h
      · exact absurd h (by simp)
      · rename_i heq
        rw [heq]
        exact congrArg (fun t => Except.ok (CpInfo.Utf8 t)) (Except.ok.inj h)
      · exact absurd h (by simp)
    · intro h
      rw [h]

/-- C9 witness: on the concrete pool `[_, Integer 5, Utf8 "A"]`,
index 1 resolves to a non-Utf8 entry and `get_utf8` rejects it with
`InvalidConstantPoolIndex 1`, while index 2 succeeds. -/
theorem get_utf8_error_kind_witness :
    ConstantPool.get ⟨[none, some (.Integer 5), some (.Utf8 "A")]⟩ 1 =
      .ok (.Integer 5) ∧
    ConstantPool.get_utf8 ⟨[none, some (.Integer 5), some (.Utf8 "A")]⟩ 1 =
      .error (.InvalidConstantPoolIndex 1) ∧
    ConstantPool.get_utf8 ⟨[none, some (.Integer 5), some (.Utf8 "A")]⟩ 2 =
      .ok "A" := by
  refine ⟨rfl, ?_, ?_⟩
  · exact (get_utf8_error_kind ⟨[none, some (.Integer 5), some (.Utf8 "A")]⟩ 1).1
      (.Integer 5) rfl (fun s h => nomatch h)
  · exact ((get_utf8_error_kind ⟨[none, some (.Integer 5), some (.Utf8 "A")]⟩ 2).2.1
      "A").mpr rfl

/-- C5: bounds safety of the four reader operations.  Each read fails
with `UnexpectedEof` when fewer than the requested bytes remain; a
successful read leaves the buffer unchanged, advances the position by
exactly the requested byte count, keeps the final position inside the
buffer (so no byte past the end is ever accessed), and returns exactly
the bytes at the prior position. -/
theorem reader_bounds_safety (r : Reader) (n : Nat) :
    (r.remaining < 1 → r.read_u1 = .error .UnexpectedEof) ∧
    (∀ v r', r.read_u1 = .ok (v, r') →
      r'.data = r.data ∧ r'.pos = r.pos + 1 ∧ r.pos + 1 ≤ r.data.length ∧
      v = r.data.getD r.pos 0) ∧
    (r.remaining < 2 → r.read_u2 = .error .UnexpectedEof) ∧
    (∀ v r', r.read_u2 = .ok (v, r') →
      r'.data = r.data ∧ r'.pos = r.pos + 2 ∧ r.pos + 2 ≤ r.data.length ∧
      v = r.data.getD r.pos 0 * 0x100 + r.data.getD (r.pos + 1) 0) ∧
    (r.remaining < 4 → r.read_u4 = .error .UnexpectedEof) ∧
    (∀ v r', r.read_u4 = .ok (v, r') →
      r'.data = r.data ∧ r'.pos = r.pos + 4 ∧ r.pos + 4 ≤ r.data.length) ∧
    (r.remaining < n → r.read_bytes n = .error .UnexpectedEof) ∧
    (∀ bs r', r.read_bytes n = .ok (bs, r') →
      r'.data = r.data ∧ r'.pos = r.pos + n ∧
      bs = (r.data.drop r.pos).take n ∧ (n = 0 ∨ r.pos + n ≤ r.data.length)) := by
  unfold Reader.read_u1 Reader.read_u2 Reader.read_u4 Reader.read_bytes
      Reader.remaining
  refine ⟨fun h => by rw [if_pos h], ?_, fun h => by rw [if_pos h], ?_,
      fun h => by rw [if_pos h], ?_, fun h => by rw [if_pos h], ?_⟩ <;>
    intro v r' h <;> split at h <;>
    simp only [Except.ok.injEq, Prod.mk.injEq, reduceCtorEq] at h <;>
    obtain ⟨hv, hr'⟩ := h <;> subst hr' <;> simp_all <;> omega

/-- C5 witness: concrete instances of the safety theorem on the
buffer `[7, 1]`. -/
theorem reader_bounds_safety_witness :
    Reader.read_bytes ⟨[7, 1], 0⟩ 3 = .error .UnexpectedEof ∧
    ((⟨[7, 1], 1⟩ : Reader).data = (⟨[7, 1], 0⟩ : Reader).data ∧
      (⟨[7, 1], 1⟩ : Reader).pos = (⟨[7, 1], 0⟩ : Reader).pos + 1 ∧
      (⟨[7, 1], 0⟩ : Reader).pos + 1 ≤ (⟨[7, 1], 0⟩ : Reader).data.length ∧
      7 = (⟨[7, 1], 0⟩ : Reader).data.getD (⟨[7, 1], 0⟩ : Reader).pos 0) :=
  ⟨(reader_bounds_safety ⟨[7, 1], 0⟩ 3).2.2.2.2.2.2.1 (by decide),
   (reader_bounds_safety ⟨[7, 1], 0⟩ 3).2.1 7 ⟨[7, 1], 1⟩ rfl⟩

/-- C3: the `frame_type` ranges of the stack-map-table decoder are
exact.  63 decodes as `Same` with `offset_delta = 63`; 64 as
`SameLocals1StackItem` with `offset_delta = 0`; 246 is rejected with
`InvalidAttribute "StackMapTable"` on every reader; 247 decodes as
`SameLocals1StackItemExtended`; 248, 249 and 250 as `Chop` with
`k = 251 - frame_type` (so 249 gives `k = 2`); 251 as `SameExtended`;
252, 253 and 254 as `Append` with `frame_type - 251` locals; 255 as
`Full`; and a `StackMapTable` attribute body drives this dispatch per
frame. -/
theorem stack_map_frame_boundaries :
    parseStackMapFrame 63 ⟨[], 0⟩ = .ok (.Same 63, ⟨[], 0⟩) ∧
    parseStackMapFrame 64 ⟨[1], 0⟩ =
      .ok (.SameLocals1StackItem 0 .Integer, ⟨[1], 1⟩) ∧
    (∀ r, parseStackMapFrame 246 r =
      .error (.InvalidAttribute "StackMapTable")) ∧
    parseStackMapFrame 247 ⟨[0, 5, 1], 0⟩ =
      .ok (.SameLocals1StackItemExtended 5 .Integer, ⟨[0, 5, 1], 3⟩) ∧
    parseStackMapFrame 248 ⟨[0, 7], 0⟩ = .ok (.Chop 7 3, ⟨[0, 7], 2⟩) ∧
    parseStackMapFrame 249 ⟨[0, 7], 0⟩ = .ok (.Chop 7 2, ⟨[0, 7], 2⟩) ∧
    parseStackMapFrame 250 ⟨[0, 7], 0⟩ = .ok (.Chop 7 1, ⟨[0, 7], 2⟩) ∧
    parseStackMapFrame 251 ⟨[0, 9], 0⟩ = .ok (.SameExtended 9, ⟨[0, 9], 2⟩) ∧
    parseStackMapFrame 252 ⟨[0, 4, 1], 0⟩ =
      .ok (.Append 4 [.Integer], ⟨[0, 4, 1], 3⟩) ∧
    parseStackMapFrame 253 ⟨[0, 4, 1, 2], 0⟩ =
      .ok (.Append 4 [.Integer, .Float], ⟨[0, 4, 1, 2], 4⟩) ∧
    parseStackMapFrame 254 ⟨[0, 4, 1, 2, 3], 0⟩ =
      .ok (.Append 4 [.Integer, .Float, .Double], ⟨[0, 4, 1, 2, 3], 5⟩) ∧
    parseStackMapFrame 255 ⟨[0, 2, 0, 0, 0, 0], 0⟩ =
      .ok (.Full 2 [] [], ⟨[0, 2, 0, 0, 0, 0], 6⟩) ∧
    parse_stack_map_table ⟨[0, 1, 63], 0⟩ =
      .ok (⟨[.Same 63]⟩, ⟨[0, 1, 63], 3⟩) :=
  ⟨rfl, rfl, fun _ => rfl, rfl, rfl, rfl, rfl, rfl, rfl, rfl, rfl, rfl, rfl⟩

/-- C4: on any buffer of at least four bytes whose leading four bytes
do not assemble (big-endian) to `0xCAFEBABE`, `ClassFile::parse` fails
with `InvalidMagic` carrying the assembled value — regardless of
everything after those four bytes, i.e. before anything else is
decoded. -/
theorem parse_invalid_magic (bytes : List Nat) (h4 : 4 ≤ bytes.length)
    (hm : bytes.getD 0 0 * 0x1000000 + bytes.getD 1 0 * 0x10000 +
        bytes.getD 2 0 * 0x100 + bytes.getD 3 0 ≠ 0xCAFEBABE) :
    ClassFile.parse bytes =
      .error (.InvalidMagic (bytes.getD 0 0 * 0x1000000 +
        bytes.getD 1 0 * 0x10000 + bytes.getD 2 0 * 0x100 + bytes.getD 3 0)) := by
  have hr : Reader.read_u4 ⟨bytes, 0⟩ =
      .ok (bytes.getD 0 0 * 0x1000000 + bytes.getD 1 0 * 0x10000 +
        bytes.getD 2 0 * 0x100 + bytes.getD 3 0, ⟨bytes, 4⟩) := by
    unfold Reader.read_u4
    rw [show (⟨bytes, 0⟩ : Reader).remaining = bytes.length from rfl,
        if_neg (by omega)]
  unfold ClassFile.parse
  simp only [hr, ok_bind, if_pos hm]

/-- C4 witness: the all-zero four-byte buffer fails with
`InvalidMagic 0`. -/
theorem parse_invalid_magic_witness :
    ClassFile.parse [0, 0, 0, 0] = .error (.InvalidMagic 0) := by
  have h := parse_invalid_magic [0, 0, 0, 0] (by decide) (by decide)
  simpa using h

/-! Constant-pool invariants. -/

/-- An 8-byte constant: `Long` or `Double`. -/
def IsWide (e : CpInfo) : Prop :=
  (∃ v, e = .Long v) ∨ (∃ v, e = .Double v)

/-- The double-slot rule as a table invariant: every `Long`/`Double`
entry is directly followed by a `None` hole slot. -/
def HoleInv (es : List (Option CpInfo)) : Prop :=
  ∀ j e, es[j]? = some (some e) → IsWide e → es[j + 1]? = some none

theorem holeInv_append_one {es : List (Option CpInfo)} (h : HoleInv es)
    (e : CpInfo) (he : ¬ IsWide e) : HoleInv (es ++ [some e]) := by
  intro j x hj hw
  by_cases hlt : j < es.length
  · have hx : es[j]? = some (some x) := by
      rwa [List.getElem?_append_left hlt] at hj
    have h2 := h j x hx hw
    have hl2 : j + 1 < es.length := by
      by_contra hge
      rw [List.getElem?_eq_none (by omega)] at h2
      exact Option.noConfusion h2
    rw [List.getElem?_append_left hl2]
    exact h2
  · rw [List.getElem?_append_right (by omega)] at hj
    rcases hc : j - es.length with _ | k
    · rw [hc] at hj
      simp only [List.getElem?_cons_zero, Option.some.injEq] at hj
      exact absurd (hj ▸ hw) he
    · rw [hc] at hj
      simp at hj

theorem holeInv_append_pair {es : List (Option CpInfo)} (h : HoleInv es)
    (e : CpInfo) : HoleInv (es ++ [some e, none]) := by
  intro j x hj hw
  by_cases hlt : j < es.length
  · have hx : es[j]? = some (some x) := by
      rwa [List.getElem?_append_left hlt] at hj
    have h2 := h j x hx hw
    have hl2 : j + 1 < es.length := by
      by_contra hge
      rw [List.getElem?_eq_none (by omega)] at h2
      exact Option.noConfusion h2
    rw [List.getElem?_append_left hl2]
    exact h2
  · rw [List.getElem?_append_right (by omega)] at hj
    rcases hc : j - es.length with _ | k
    · have hj_eq : j = es.length := by omega
      rw [List.getElem?_append_right (by omega), show j + 1 - es.length = 1 by omega]
      rfl
    · rw [hc] at hj
      rcases k with _ | k2
      · simp at hj
      · simp at hj

theorem not_wide {e : CpInfo} (hL : ∀ v, e ≠ .Long v)
    (hD : ∀ v, e ≠ .Double v) : ¬ IsWide e := by
  intro hw
  rcases hw with ⟨v, hv⟩ | ⟨v, hv⟩
  · exact hL v hv
  · exact hD v hv

/-- The constant-pool loop preserves the double-slot invariant: tags 5
and 6 append the value and a `None` hole together, every other tag
appends a single non-wide entry. -/
theorem parseCpEntries_holeInv :
    ∀ n r count i entries es r', count - i ≤ n →
      parseCpEntries r count i entries = .ok (es, r') →
      HoleInv entries → HoleInv es := by
  intro n
  induction n with
  | zero =>
    intro r count i entries es r' hn h hinv
    rw [parseCpEntries.eq_def, dif_neg (by omega)] at h
    simp only [Except.ok.injEq, Prod.mk.injEq] at h
    obtain ⟨rfl, -⟩ := h
    exact hinv
  | succ n ih =>
    intro r count i entries es r' hn h hinv
    rw [parseCpEntries.eq_def] at h
    by_cases hic : i < count
    case neg =>
      rw [dif_neg hic] at h
      simp only [Except.ok.injEq, Prod.mk.injEq] at h
      obtain ⟨rfl, -⟩ := h
      exact hinv
    rw [dif_pos hic] at h
    obtain ⟨⟨tag, r1⟩, -, h⟩ := bind_ok_inv h
    simp only [] at h
    by_cases ht1 : tag = 1
    case pos =>
      rw [if_pos ht1] at h
      repeat' obtain ⟨⟨x, rx⟩, -, h⟩ := bind_ok_inv h
      exact ih _ _ _ _ _ _ (by omega) h (holeInv_append_one hinv _
        (not_wide (fun v hv => CpInfo.noConfusion hv)
          (fun v hv => CpInfo.noConfusion hv)))
    rw [if_neg ht1] at h
    by_cases ht3 : tag = 3
    case pos =>
      rw [if_pos ht3] at h
      repeat' obtain ⟨⟨x, rx⟩, -, h⟩ := bind_ok_inv h
      exact ih _ _ _ _ _ _ (by omega) h (holeInv_append_one hinv _
        (not_wide (fun v hv => CpInfo.noConfusion hv)
          (fun v hv => CpInfo.noConfusion hv)))
    rw [if_neg ht3] at h
    by_cases ht4 : tag = 4
    case pos =>
      rw [if_pos ht4] at h
      repeat' obtain ⟨⟨x, rx⟩, -, h⟩ := bind_ok_inv h
      exact ih _ _ _ _ _ _ (by omega) h (holeInv_append_one hinv _
        (not_wide (fun v hv => CpInfo.noConfusion hv)
          (fun v hv => CpInfo.noConfusion hv)))
    rw [if_neg ht4] at h
    by_cases ht5 : tag = 5
    case pos =>
      rw [if_pos ht5] at h
      repeat' obtain ⟨⟨x, rx⟩, -, h⟩ := bind_ok_inv h
      exact ih _ _ _ _ _ _ (by omega) h (holeInv_append_pair hinv _)
    rw [if_neg ht5] at h
    by_cases ht6 : tag = 6
    case pos =>
      rw [if_pos ht6] at h
      repeat' obtain ⟨⟨x, rx⟩, -, h⟩ := bind_ok_inv h
      exact ih _ _ _ _ _ _ (by omega) h (holeInv_append_pair hinv _)
    rw [if_neg ht6] at h
    by_cases ht7 : tag = 7
    case pos =>
      rw [if_pos ht7] at h
      repeat' obtain ⟨⟨x, rx⟩, -, h⟩ := bind_ok_inv h
      exact ih _ _ _ _ _ _ (by omega) h (holeInv_append_one hinv _
        (not_wide (fun v hv => CpInfo.noConfusion hv)
          (fun v hv => CpInfo.noConfusion hv)))
    rw [if_neg ht7] at h
    by_cases ht8 : tag = 8
    case pos =>
      rw [if_pos ht8] at h
      repeat' obtain ⟨⟨x, rx⟩, -, h⟩ := bind_ok_inv h
      exact ih _ _ _ _ _ _ (by omega) h (holeInv_append_one hinv _
        (not_wide (fun v hv => CpInfo.noConfusion hv)
          (fun v hv => CpInfo.noConfusion hv)))
    rw [if_neg ht8] at h
    by_cases ht9 : tag = 9
    case pos =>
      rw [if_pos ht9] at h
      repeat' obtain ⟨⟨x, rx⟩, -, h⟩ := bind_ok_inv h
      exact ih _ _ _ _ _ _ (by omega) h (holeInv_append_one hinv _
        (not_wide (fun v hv => CpInfo.noConfusion hv)
          (fun v hv => CpInfo.noConfusion hv)))
    rw [if_neg ht9] at h
    by_cases ht10 : tag = 10
    case pos =>
      rw [if_pos ht10] at h
      repeat' obtain ⟨⟨x, rx⟩, -, h⟩ := bind_ok_inv h
      exact ih _ _ _ _ _ _ (by omega) h (holeInv_append_one hinv _
        (not_wide (fun v hv => CpInfo.noConfusion hv)
          (fun v hv => CpInfo.noConfusion hv)))
    rw [if_neg ht10] at h
    by_cases ht11 : tag = 11
    case pos =>
      rw [if_pos ht11] at h
      repeat' obtain ⟨⟨x, rx⟩, -, h⟩ := bind_ok_inv h
      exact ih _ _ _ _ _ _ (by omega) h (holeInv_append_one hinv _
        (not_wide (fun v hv => CpInfo.noConfusion hv)
          (fun v hv => CpInfo.noConfusion hv)))
    rw [if_neg ht11] at h
    by_cases ht12 : tag = 12
    case pos =>
      rw [if_pos ht12] at h
      repeat' obtain ⟨⟨x, rx⟩, -, h⟩ := bind_ok_inv h
      exact ih _ _ _ _ _ _ (by omega) h (holeInv_append_one hinv _
        (not_wide (fun v hv => CpInfo.noConfusion hv)
          (fun v hv => CpInfo.noConfusion hv)))
    rw [if_neg ht12] at h
    by_cases ht15 : tag = 15
    case pos =>
      rw [if_pos ht15] at h
      repeat' obtain ⟨⟨x, rx⟩, -, h⟩ := bind_ok_inv h
      exact ih _ _ _ _ _ _ (by omega) h (holeInv_append_one hinv _
        (not_wide (fun v hv => CpInfo.noConfusion hv)
          (fun v hv => CpInfo.noConfusion hv)))
    rw [if_neg ht15] at h
    by_cases ht16 : tag = 16
    case pos =>
      rw [if_pos ht16] at h
      repeat' obtain ⟨⟨x, rx⟩, -, h⟩ := bind_ok_inv h
      exact ih _ _ _ _ _ _ (by omega) h (holeInv_append_one hinv _
        (not_wide (fun v hv => CpInfo.noConfusion hv)
          (fun v hv => CpInfo.noConfusion hv)))
    rw [if_neg ht16] at h
    by_cases ht17 : tag = 17
    case pos =>
      rw [if_pos ht17] at h
      repeat' obtain ⟨⟨x, rx⟩, -, h⟩ := bind_ok_inv h
      exact ih _ _ _ _ _ _ (by omega) h (holeInv_append_one hinv _
        (not_wide (fun v hv => CpInfo.noConfusion hv)
          (fun v hv => CpInfo.noConfusion hv)))
    rw [if_neg ht17] at h
    by_cases ht18 : tag = 18
    case pos =>
      rw [if_pos ht18] at h
      repeat' obtain ⟨⟨x, rx⟩, -, h⟩ := bind_ok_inv h
      exact ih _ _ _ _ _ _ (by omega) h (holeInv_append_one hinv _
        (not_wide (fun v hv => CpInfo.noConfusion hv)
          (fun v hv => CpInfo.noConfusion hv)))
    rw [if_neg ht18] at h
    by_cases ht19 : tag = 19
    case pos =>
      rw [if_pos ht19] at h
      repeat' obtain ⟨⟨x, rx⟩, -, h⟩ := bind_ok_inv h
      exact ih _ _ _ _ _ _ (by omega) h (holeInv_append_one hinv _
        (not_wide (fun v hv => CpInfo.noConfusion hv)
          (fun v hv => CpInfo.noConfusion hv)))
    rw [if_neg ht19] at h
    by_cases ht20 : tag = 20
    case pos =>
      rw [if_pos ht20] at h
      repeat' obtain ⟨⟨x, rx⟩, -, h⟩ := bind_ok_inv h
      exact ih _ _ _ _ _ _ (by omega) h (holeInv_append_one hinv _
        (not_wide (fun v hv => CpInfo.noConfusion hv)
          (fun v hv => CpInfo.noConfusion hv)))
    rw [if_neg ht20] at h
    exact absurd h (by simp)
/-- C6: inside the constant-pool loop, a tag outside
`{1,3,4,5,6,7,8,9,10,11,12,15,16,17,18,19,20}` makes the whole decode
abort at once with `InvalidConstantPoolTag(tag)` — the `Except` result
is an error, so no partial pool is ever returned; the second conjunct
lifts this to `parse_constant_pool` itself. -/
theorem cp_invalid_tag_aborts (r r1 r2 : Reader) (count tag : Nat) :
    (∀ i entries, i < count → r.read_u1 = .ok (tag, r1) →
      tag ∉ [1, 3, 4, 5, 6, 7, 8, 9, 10, 11, 12, 15, 16, 17, 18, 19, 20] →
      parseCpEntries r count i entries =
        .error (.InvalidConstantPoolTag tag)) ∧
    (r.read_u2 = .ok (count, r1) → r1.read_u1 = .ok (tag, r2) → 1 < count →
      tag ∉ [1, 3, 4, 5, 6, 7, 8, 9, 10, 11, 12, 15, 16, 17, 18, 19, 20] →
      parse_constant_pool r = .error (.InvalidConstantPoolTag tag)) := by
  have key : ∀ (r r1 : Reader) i entries, i < count → r.read_u1 = .ok (tag, r1) →
      tag ∉ [1, 3, 4, 5, 6, 7, 8, 9, 10, 11, 12, 15, 16, 17, 18, 19, 20] →
      parseCpEntries r count i entries =
        .error (.InvalidConstantPoolTag tag) := by
    intro r r1 i entries hi hr htag
    simp only [List.mem_cons, List.not_mem_nil, or_false, not_or] at htag
    obtain ⟨h1, h3, h4, h5, h6, h7, h8, h9, h10, h11, h12, h15, h16, h17,
        h18, h19, h20⟩ := htag
    rw [parseCpEntries.eq_def, dif_pos hi]
    simp only [hr, ok_bind, if_neg h1, if_neg h3, if_neg h4, if_neg h5,
      if_neg h6, if_neg h7, if_neg h8, if_neg h9, if_neg h10, if_neg h11,
      if_neg h12, if_neg h15, if_neg h16, if_neg h17, if_neg h18, if_neg h19,
      if_neg h20]
  refine ⟨fun i entries hi hr htag => key r r1 i entries hi hr htag,
    fun hc hr1 hcount htag => ?_⟩
  unfold parse_constant_pool
  simp only [hc, ok_bind, key r1 r2 1 [none] hcount hr1 htag, error_bind]

/-- C6 witness: the buffer `[0, 2, 2]` declares `count = 2` and then
offers tag 2, which is rejected. -/
theorem cp_invalid_tag_aborts_witness :
    parse_constant_pool ⟨[0, 2, 2], 0⟩ =
      .error (.InvalidConstantPoolTag 2) :=
  (cp_invalid_tag_aborts ⟨[0, 2, 2], 0⟩ ⟨[0, 2, 2], 2⟩ ⟨[0, 2, 2], 3⟩ 2 2).2
    rfl rfl (by decide) (by decide)

/-- Exit equation of the constant-pool loop. -/
theorem parseCpEntries_stop (r : Reader) (count i : Nat)
    (entries : List (Option CpInfo)) (h : ¬ i < count) :
    parseCpEntries r count i entries = .ok (entries, r) := by
  rw [parseCpEntries.eq_def, dif_neg h]

/-- Step equation of the constant-pool loop for tag 3 (`Integer`). -/
theorem parseCpEntries_step3 (r r1 r2 : Reader) (count i v : Nat)
    (entries : List (Option CpInfo)) (hi : i < count)
    (hr : r.read_u1 = .ok (3, r1)) (h4 : r1.read_u4 = .ok (v, r2)) :
    parseCpEntries r count i entries =
      parseCpEntries r2 count (i + 1) (entries ++ [some (.Integer v)]) := by
  rw [parseCpEntries.eq_def, dif_pos hi]
  simp [hr, h4, ok_bind]

/-- C2: the double-slot rule.  Conjuncts 1–2: when the loop meets tag 5
(resp. 6) it stores the combined value at the current slot, stores
`None` at the next slot, and re-enters with the loop index advanced by
2; with the loop invariant `entries.length = i`, the value therefore
sits at table index `i` and the hole at `i + 1`.  Conjuncts 3–4: in any
pool produced by `parse_constant_pool`, a `Long`/`Double` at index `i`
makes `get (i+1)` fail with `InvalidConstantPoolIndex (i+1)`.
Conjunct 5: a `None` hole is never resolved — `get` at any hole index
fails with `InvalidConstantPoolIndex`. -/
theorem cp_long_double_hole :
    (∀ (r r1 r2 r3 : Reader) high low count i entries, i < count →
      r.read_u1 = .ok (5, r1) → r1.read_u4 = .ok (high, r2) →
      r2.read_u4 = .ok (low, r3) →
      parseCpEntries r count i entries =
        parseCpEntries r3 count (i + 2)
          (entries ++ [some (.Long ((high <<< 32) ||| low)), none]) ∧
      (entries.length = i →
        (entries ++ [some (.Long ((high <<< 32) ||| low)), none])[i]? =
          some (some (.Long ((high <<< 32) ||| low))) ∧
        (entries ++ [some (.Long ((high <<< 32) ||| low)), none])[i + 1]? =
          some none)) ∧
    (∀ (r r1 r2 r3 : Reader) high low count i entries, i < count →
      r.read_u1 = .ok (6, r1) → r1.read_u4 = .ok (high, r2) →
      r2.read_u4 = .ok (low, r3) →
      parseCpEntries r count i entries =
        parseCpEntries r3 count (i + 2)
          (entries ++ [some (.Double ((high <<< 32) ||| low)), none]) ∧
      (entries.length = i →
        (entries ++ [some (.Double ((high <<< 32) ||| low)), none])[i]? =
          some (some (.Double ((high <<< 32) ||| low))) ∧
        (entries ++ [some (.Double ((high <<< 32) ||| low)), none])[i + 1]? =
          some none)) ∧
    (∀ (r : Reader) (pool : ConstantPool) r' i v,
      parse_constant_pool r = .ok (pool, r') →
      pool.entries[i]? = some (some (.Long v)) →
      pool.get (i + 1) = .error (.InvalidConstantPoolIndex (i + 1))) ∧
    (∀ (r : Reader) (pool : ConstantPool) r' i v,
      parse_constant_pool r = .ok (pool, r') →
      pool.entries[i]? = some (some (.Double v)) →
      pool.get (i + 1) = .error (.InvalidConstantPoolIndex (i + 1))) ∧
    (∀ (pool : ConstantPool) i, pool.entries[i]? = some none →
      pool.get i = .error (.InvalidConstantPoolIndex i)) := by
  have hole_get : ∀ (pool : ConstantPool) i, pool.entries[i]? = some none →
      pool.get i = .error (.InvalidConstantPoolIndex i) := by
    intro pool i hi
    unfold ConstantPool.get
    by_cases h0 : i = 0
    · rw [if_pos h0]
    · rw [if_neg h0, hi]
  have slots : ∀ (e : Option CpInfo) (entries : List (Option CpInfo)) i,
      entries.length = i →
      (entries ++ [e, none])[i]? = some e ∧
      (entries ++ [e, none])[i + 1]? = some none := by
    intro e entries i hlen
    subst hlen
    constructor
    · rw [List.getElem?_append_right (Nat.le_refl _), Nat.sub_self]
      rfl
    · rw [List.getElem?_append_right (by omega),
        show entries.length + 1 - entries.length = 1 by omega]
      rfl
  have pool_inv : ∀ (r : Reader) (pool : ConstantPool) r',
      parse_constant_pool r = .ok (pool, r') → HoleInv pool.entries := by
    intro r pool r' hp
    unfold parse_constant_pool at hp
    obtain ⟨⟨count, r1⟩, -, hp⟩ := bind_ok_inv hp
    obtain ⟨⟨entries, r2⟩, hloop, hp⟩ := bind_ok_inv hp
    simp only [Except.ok.injEq, Prod.mk.injEq] at hp
    obtain ⟨rfl, -⟩ := hp
    refine parseCpEntries_holeInv count r1 count 1 [none] entries r2
        (by omega) hloop ?_
    intro j e hj hw
    rcases j with _ | k
    · simp at hj
    · simp at hj
  have step5 : ∀ (r r1 r2 r3 : Reader) high low count i entries, i < count →
      r.read_u1 = .ok (5, r1) → r1.read_u4 = .ok (high, r2) →
      r2.read_u4 = .ok (low, r3) →
      parseCpEntries r count i entries =
        parseCpEntries r3 count (i + 2)
          (entries ++ [some (.Long ((high <<< 32) ||| low)), none]) := by
    intro r r1 r2 r3 high low count i entries hi hr hh hl
    rw [parseCpEntries.eq_def, dif_pos hi]
    simp [hr, hh, hl, ok_bind]
  have step6 : ∀ (r r1 r2 r3 : Reader) high low count i entries, i < count →
      r.read_u1 = .ok (6, r1) → r1.read_u4 = .ok (high, r2) →
      r2.read_u4 = .ok (low, r3) →
      parseCpEntries r count i entries =
        parseCpEntries r3 count (i + 2)
          (entries ++ [some (.Double ((high <<< 32) ||| low)), none]) := by
    intro r r1 r2 r3 high low count i entries hi hr hh hl
    rw [parseCpEntries.eq_def, dif_pos hi]
    simp [hr, hh, hl, ok_bind]
  refine ⟨fun r r1 r2 r3 high low count i entries hi hr hh hl =>
      ⟨step5 r r1 r2 r3 high low count i entries hi hr hh hl, slots _ _ _⟩,
    fun r r1 r2 r3 high low count i entries hi hr hh hl =>
      ⟨step6 r r1 r2 r3 high low count i entries hi hr hh hl, slots _ _ _⟩,
    fun r pool r' i v hp hidx =>
      hole_get pool (i + 1) (pool_inv r pool r' hp i _ hidx (Or.inl ⟨v, rfl⟩)),
    fun r pool r' i v hp hidx =>
      hole_get pool (i + 1) (pool_inv r pool r' hp i _ hidx (Or.inr ⟨v, rfl⟩)),
    hole_get⟩

/-- C2 witness: the buffer `count = 4, tag 5 (Long 1), tag 3
(Integer 7)` decodes to the pool `[_, Long 1, hole, Integer 7]`, and
`get 2` — the hole behind the `Long` at index 1 — fails with
`InvalidConstantPoolIndex 2`. -/
theorem cp_long_double_hole_witness :
    parse_constant_pool ⟨[0, 4, 5, 0, 0, 0, 0, 0, 0, 0, 1, 3, 0, 0, 0, 7], 0⟩ =
      .ok (⟨[none, some (.Long 1), none, some (.Integer 7)]⟩,
        ⟨[0, 4, 5, 0, 0, 0, 0, 0, 0, 0, 1, 3, 0, 0, 0, 7], 16⟩) ∧
    ConstantPool.get ⟨[none, some (.Long 1), none, some (.Integer 7)]⟩ 2 =
      .error (.InvalidConstantPoolIndex 2) := by
  have e1 := (cp_long_double_hole.1
      ⟨[0, 4, 5, 0, 0, 0, 0, 0, 0, 0, 1, 3, 0, 0, 0, 7], 2⟩
      ⟨[0, 4, 5, 0, 0, 0, 0, 0, 0, 0, 1, 3, 0, 0, 0, 7], 3⟩
      ⟨[0, 4, 5, 0, 0, 0, 0, 0, 0, 0, 1, 3, 0, 0, 0, 7], 7⟩
      ⟨[0, 4, 5, 0, 0, 0, 0, 0, 0, 0, 1, 3, 0, 0, 0, 7], 11⟩
      0 1 4 1 [none] (by decide) rfl rfl rfl).1
  have e2 := parseCpEntries_step3
      ⟨[0, 4, 5, 0, 0, 0, 0, 0, 0, 0, 1, 3, 0, 0, 0, 7], 11⟩
      ⟨[0, 4, 5, 0, 0, 0, 0, 0, 0, 0, 1, 3, 0, 0, 0, 7], 12⟩
      ⟨[0, 4, 5, 0, 0, 0, 0, 0, 0, 0, 1, 3, 0, 0, 0, 7], 16⟩
      4 3 7 ([none] ++ [some (.Long ((0 <<< 32) ||| 1)), none])
      (by decide) rfl rfl
  have e3 := parseCpEntries_stop
      ⟨[0, 4, 5, 0, 0, 0, 0, 0, 0, 0, 1, 3, 0, 0, 0, 7], 16⟩ 4 4
      ([none] ++ [some (.Long ((0 <<< 32) ||| 1)), none] ++ [some (.Integer 7)])
      (by decide)
  have hp : parse_constant_pool
      ⟨[0, 4, 5, 0, 0, 0, 0, 0, 0, 0, 1, 3, 0, 0, 0, 7], 0⟩ =
      .ok (⟨[none, some (.Long 1), none, some (.Integer 7)]⟩,
        ⟨[0, 4, 5, 0, 0, 0, 0, 0, 0, 0, 1, 3, 0, 0, 0, 7], 16⟩) := by
    simp only [show (1 : Nat) + 2 = 3 from rfl] at e1
    simp only [show (3 : Nat) + 1 = 4 from rfl] at e2
    unfold parse_constant_pool
    rw [show Reader.read_u2 ⟨[0, 4, 5, 0, 0, 0, 0, 0, 0, 0, 1, 3, 0, 0, 0, 7], 0⟩
        = .ok (4, ⟨[0, 4, 5, 0, 0, 0, 0, 0, 0, 0, 1, 3, 0, 0, 0, 7], 2⟩)
        from rfl, ok_bind]
    simp only []
    rw [e1, e2, e3]
    rfl
  exact ⟨hp, cp_long_double_hole.2.2.1 _ _ _ 1 1 hp rfl⟩

/-! Attribute-decoder lemmas. -/

/-- The attribute names the dispatch of `parse_attributes` recognizes,
in source order; every other name selects the `Unknown` fallback. -/
def knownAttrNames : List String :=
  ["ConstantValue", "Code", "StackMapTable", "Exceptions", "InnerClasses",
   "EnclosingMethod", "Synthetic", "Signature", "SourceFile",
   "SourceDebugExtension", "LineNumberTable", "LocalVariableTable",
   "LocalVariableTypeTable", "Deprecated", "RuntimeVisibleAnnotations",
   "RuntimeInvisibleAnnotations", "RuntimeVisibleParameterAnnotations",
   "RuntimeInvisibleParameterAnnotations", "RuntimeVisibleTypeAnnotations",
   "RuntimeInvisibleTypeAnnotations", "AnnotationDefault", "BootstrapMethods",
   "MethodParameters", "Module", "ModulePackages", "ModuleMainClass",
   "ModuleHashes", "ModuleTarget", "ModuleResolution", "NestHost",
   "NestMembers", "Record", "PermittedSubclasses"]

theorem read_u1_pos {r r' : Reader} {v : Nat} (h : r.read_u1 = .ok (v, r')) :
    r'.data = r.data ∧ r'.pos = r.pos + 1 := by
  unfold Reader.read_u1 at h
  split at h
  · exact absurd h (by simp)
  · simp only [Except.ok.injEq, Prod.mk.injEq] at h
    obtain ⟨-, rfl⟩ := h
    exact ⟨rfl, rfl⟩

theorem read_u2_pos {r r' : Reader} {v : Nat} (h : r.read_u2 = .ok (v, r')) :
    r'.data = r.data ∧ r'.pos = r.pos + 2 := by
  unfold Reader.read_u2 at h
  split at h
  · exact absurd h (by simp)
  · simp only [Except.ok.injEq, Prod.mk.injEq] at h
    obtain ⟨-, rfl⟩ := h
    exact ⟨rfl, rfl⟩

theorem read_u4_pos {r r' : Reader} {v : Nat} (h : r.read_u4 = .ok (v, r')) :
    r'.data = r.data ∧ r'.pos = r.pos + 4 := by
  unfold Reader.read_u4 at h
  split at h
  · exact absurd h (by simp)
  · simp only [Except.ok.injEq, Prod.mk.injEq] at h
    obtain ⟨-, rfl⟩ := h
    exact ⟨rfl, rfl⟩

theorem read_bytes_pos {r r' : Reader} {len : Nat} {bs : List Nat}
    (h : r.read_bytes len = .ok (bs, r')) :
    r'.data = r.data ∧ r'.pos = r.pos + len := by
  unfold Reader.read_bytes at h
  split at h
  · exact absurd h (by simp)
  · simp only [Except.ok.injEq, Prod.mk.injEq] at h
    obtain ⟨-, rfl⟩ := h
    exact ⟨rfl, rfl⟩

/-- Reading the whole remaining sub-buffer from position 0 always
succeeds and returns the buffer verbatim. -/
theorem read_all_bytes (bs : List Nat) :
    Reader.read_bytes ⟨bs, 0⟩ ((⟨bs, 0⟩ : Reader).remaining) =
      .ok (bs, ⟨bs, bs.length⟩) := by
  unfold Reader.read_bytes Reader.remaining
  rw [if_neg (by omega)]
  simp

/-- The trailing-bytes arm of `parse_attributes` never succeeds: both
of its alternatives produce an error. -/
theorem leftover_is_error (cp : ConstantPool) (name_index : Nat)
    (attr : AttributeInfo) (y : AttributeInfo × Reader) :
    (match attr with
      | .Unknown n _ => Except.error (ClassFileError.InvalidAttribute n)
      | _ =>
        match cp.get_utf8 name_index with
        | .error e => Except.error e
        | .ok n2 => Except.error (ClassFileError.InvalidAttribute n2)) ≠
      .ok y := by
  cases attr <;> (try split) <;> (try split) <;> simp

/-- C7: an attribute whose resolved name is none of the known names
decodes as `Unknown{name, raw_bytes}` where `raw_bytes` is exactly the
`length` declared payload bytes; given that those bytes are present,
the decode of this attribute always succeeds (the sub-reader is fully
consumed, so the trailing-bytes check passes). -/
theorem unknown_attr_raw (fuel : Nat) (cp : ConstantPool)
    (r r1 r2 r3 : Reader) (name_index length : Nat) (name : String)
    (bs : List Nat)
    (h2 : r.read_u2 = .ok (name_index, r1))
    (h4 : r1.read_u4 = .ok (length, r2))
    (hn : cp.get_utf8 name_index = .ok name)
    (hb : r2.read_bytes length = .ok (bs, r3))
    (hu : name ∉ knownAttrNames) :
    parseOneAttr (fuel + 2) cp r = .ok (.Unknown name bs, r3) := by
  simp only [knownAttrNames, List.mem_cons, List.not_mem_nil, or_false,
    not_or] at hu
  obtain ⟨q1, q2, q3, q4, q5, q6, q7, q8, q9, q10, q11, q12, q13, q14, q15,
    q16, q17, q18, q19, q20, q21, q22, q23, q24, q25, q26, q27, q28, q29,
    q30, q31, q32, q33⟩ := hu
  simp only [parseOneAttr, h2, ok_bind, h4, hn, hb]
  simp only [attrDispatch, if_neg q1, if_neg q2, if_neg q3, if_neg q4,
    if_neg q5, if_neg q6, if_neg q7, if_neg q8, if_neg q9, if_neg q10,
    if_neg q11, if_neg q12, if_neg q13, if_neg q14, if_neg q15, if_neg q16,
    if_neg q17, if_neg q18, if_neg q19, if_neg q20, if_neg q21, if_neg q22,
    if_neg q23, if_neg q24, if_neg q25, if_neg q26, if_neg q27, if_neg q28,
    if_neg q29, if_neg q30, if_neg q31, if_neg q32, if_neg q33]
  rw [read_all_bytes, ok_bind]
  simp [ok_bind, Reader.remaining]

/-- C7 witness: the name `"Foo"` is unknown, so a three-byte payload
comes back verbatim as `Unknown "Foo" [9, 8, 7]` and the decode
succeeds. -/
theorem unknown_attr_raw_witness :
    parseOneAttr 7 ⟨[none, some (.Utf8 "Foo")]⟩
      ⟨[0, 1, 0, 0, 0, 3, 9, 8, 7], 0⟩ =
      .ok (.Unknown "Foo" [9, 8, 7], ⟨[0, 1, 0, 0, 0, 3, 9, 8, 7], 9⟩) :=
  unknown_attr_raw 5 ⟨[none, some (.Utf8 "Foo")]⟩
    ⟨[0, 1, 0, 0, 0, 3, 9, 8, 7], 0⟩ ⟨[0, 1, 0, 0, 0, 3, 9, 8, 7], 2⟩
    ⟨[0, 1, 0, 0, 0, 3, 9, 8, 7], 6⟩ ⟨[0, 1, 0, 0, 0, 3, 9, 8, 7], 9⟩
    1 3 "Foo" [9, 8, 7] rfl rfl rfl rfl (by decide)

/-- C10: whenever the per-attribute decode succeeds, the outer reader
keeps its buffer and its position advances by exactly `6 + length`
bytes (2 for `name_index`, 4 for the u4 `length`, plus the declared
payload), for every attribute kind: one attribute can never consume
outer-buffer bytes beyond its declared length and shift the boundary of
the next attribute. -/
theorem attr_frame_effect (fuel : Nat) (cp : ConstantPool)
    (r r1 r2 : Reader) (name_index length : Nat) (attr : AttributeInfo)
    (r' : Reader)
    (h2 : r.read_u2 = .ok (name_index, r1))
    (h4 : r1.read_u4 = .ok (length, r2))
    (hok : parseOneAttr fuel cp r = .ok (attr, r')) :
    r'.data = r.data ∧ r'.pos = r.pos + (6 + length) := by
  cases fuel with
  | zero => exact absurd hok (by simp [parseOneAttr])
  | succ fuel =>
    simp only [parseOneAttr, h2, ok_bind, h4] at hok
    obtain ⟨name, hname, hok⟩ := bind_ok_inv hok
    obtain ⟨⟨bs, r3⟩, hb, hok⟩ := bind_ok_inv hok
    obtain ⟨⟨a, s1⟩, hd, hok⟩ := bind_ok_inv hok
    simp only [] at hok
    by_cases hrem : s1.remaining ≠ 0
    · rw [if_pos hrem] at hok
      exact absurd hok (leftover_is_error cp name_index a (attr, r'))
    · rw [if_neg hrem] at hok
      simp only [Except.ok.injEq, Prod.mk.injEq] at hok
      obtain ⟨-, rfl⟩ := hok
      obtain ⟨hd2, hp2⟩ := read_u2_pos h2
      obtain ⟨hd4, hp4⟩ := read_u4_pos h4
      obtain ⟨hdb, hpb⟩ := read_bytes_pos hb
      refine ⟨by rw [hdb, hd4, hd2], by omega⟩

/-- C10 witness: a well-formed `ConstantValue` attribute with declared
length 2 advances the outer reader from position 0 to position
`0 + (6 + 2) = 8` and keeps the buffer. -/
theorem attr_frame_effect_witness :
    (⟨[0, 1, 0, 0, 0, 2, 0, 5], 8⟩ : Reader).data =
      (⟨[0, 1, 0, 0, 0, 2, 0, 5], 0⟩ : Reader).data ∧
    (⟨[0, 1, 0, 0, 0, 2, 0, 5], 8⟩ : Reader).pos =
      (⟨[0, 1, 0, 0, 0, 2, 0, 5], 0⟩ : Reader).pos + (6 + 2) := by
  have hok : parseOneAttr 2 ⟨[none, some (.Utf8 "ConstantValue")]⟩
      ⟨[0, 1, 0, 0, 0, 2, 0, 5], 0⟩ =
      .ok (.ConstantValue 5, ⟨[0, 1, 0, 0, 0, 2, 0, 5], 8⟩) := by
    simp [parseOneAttr, attrDispatch, ConstantPool.get_utf8, ConstantPool.get,
      Reader.read_u1, Reader.read_u2, Reader.read_u4, Reader.read_bytes,
      Reader.remaining, ok_bind]
  exact attr_frame_effect 2 ⟨[none, some (.Utf8 "ConstantValue")]⟩
    ⟨[0, 1, 0, 0, 0, 2, 0, 5], 0⟩ ⟨[0, 1, 0, 0, 0, 2, 0, 5], 2⟩
    ⟨[0, 1, 0, 0, 0, 2, 0, 5], 6⟩ 1 2 (.ConstantValue 5)
    ⟨[0, 1, 0, 0, 0, 2, 0, 5], 8⟩ rfl rfl hok

/-- C1 (amended): after dispatch, if the length-bounded sub-reader has
bytes remaining — as happens when the declared u4 `length` is one byte
longer than what the body encodes — the per-attribute decode fails with
`InvalidAttribute` naming that attribute (the stored name for `Unknown`
attributes, the re-resolved pool name otherwise). -/
theorem attr_trailing_bytes_invalid (fuel : Nat) (cp : ConstantPool)
    (r r1 r2 r3 : Reader) (name_index length : Nat) (name : String)
    (bs : List Nat) (attr : AttributeInfo) (s1 : Reader)
    (h2 : r.read_u2 = .ok (name_index, r1))
    (h4 : r1.read_u4 = .ok (length, r2))
    (hn : cp.get_utf8 name_index = .ok name)
    (hb : r2.read_bytes length = .ok (bs, r3))
    (hd : attrDispatch fuel cp name ⟨bs, 0⟩ = .ok (attr, s1))
    (hrem : s1.remaining ≠ 0) :
    parseOneAttr (fuel + 1) cp r =
      .error (.InvalidAttribute (match attr with
        | .Unknown n _ => n
        | _ => name)) := by
  simp only [parseOneAttr, h2, ok_bind, h4, hn, hb, hd]
  rw [if_pos hrem]
  cases attr <;> simp [hn]

/-- C1 counterexample: a `ConstantValue` attribute whose body encodes
two bytes but whose declared length is 1 — one byte shorter — makes the
sub-reader hit its end, so the decode fails with `UnexpectedEof`, not
with `InvalidAttribute "ConstantValue"` as the claim requires. -/
theorem attr_short_length_counterexample :
    parse_attributes 9 ⟨[none, some (.Utf8 "ConstantValue")]⟩
      ⟨[0, 1, 0, 1, 0, 0, 0, 1, 99], 0⟩ = .error .UnexpectedEof ∧
    parse_attributes 9 ⟨[none, some (.Utf8 "ConstantValue")]⟩
      ⟨[0, 1, 0, 1, 0, 0, 0, 1, 99], 0⟩ ≠
      .error (.InvalidAttribute "ConstantValue") := by
  have h : parse_attributes 9 ⟨[none, some (.Utf8 "ConstantValue")]⟩
      ⟨[0, 1, 0, 1, 0, 0, 0, 1, 99], 0⟩ = .error .UnexpectedEof := by
    simp [parse_attributes, parseAttrsLoop, parseOneAttr, attrDispatch,
      ConstantPool.get_utf8, ConstantPool.get, Reader.read_u1, Reader.read_u2,
      Reader.read_u4, Reader.read_bytes, Reader.remaining, ok_bind, error_bind]
  exact ⟨h, by rw [h]; simp⟩

/-- C1 witness: a `ConstantValue` attribute with declared length 3 —
one byte longer than the two bytes its body encodes — leaves one byte
in the sub-reader after dispatch and is rejected with
`InvalidAttribute "ConstantValue"`. -/
theorem attr_trailing_bytes_invalid_witness :
    parseOneAttr 2 ⟨[none, some (.Utf8 "ConstantValue")]⟩
      ⟨[0, 1, 0, 0, 0, 3, 0, 5, 99], 0⟩ =
      .error (.InvalidAttribute "ConstantValue") := by
  have hd : attrDispatch 1 ⟨[none, some (.Utf8 "ConstantValue")]⟩
      "ConstantValue" ⟨[0, 5, 99], 0⟩ =
      .ok (.ConstantValue 5, ⟨[0, 5, 99], 2⟩) := by
    simp [attrDispatch, Reader.read_u2, Reader.remaining, ok_bind]
  exact attr_trailing_bytes_invalid 1 ⟨[none, some (.Utf8 "ConstantValue")]⟩
    ⟨[0, 1, 0, 0, 0, 3, 0, 5, 99], 0⟩ ⟨[0, 1, 0, 0, 0, 3, 0, 5, 99], 2⟩
    ⟨[0, 1, 0, 0, 0, 3, 0, 5, 99], 6⟩ ⟨[0, 1, 0, 0, 0, 3, 0, 5, 99], 9⟩
    1 3 "ConstantValue" [0, 5, 99] (.ConstantValue 5) ⟨[0, 5, 99], 2⟩
    rfl rfl rfl rfl hd (by decide)

/-! C8 infrastructure: no parser result is ever the `InvalidUtf8`
error.  `noIU` holds of a result when it is not `error InvalidUtf8`;
it is pushed through every function of the decoder. -/

/-- The result is not the `InvalidUtf8` error. -/
def noIU {α : Type} : Except ClassFileError α → Prop
  | .error .InvalidUtf8 => False
  | _ => True

theorem noIU_ne {α : Type} {x : Except ClassFileError α} (h : noIU x) :
    x ≠ .error .InvalidUtf8 := by
  intro he
  rw [he] at h
  exact h

theorem noIU_bind {α β : Type} {x : Except ClassFileError α}
    {f : α → Except ClassFileError β} (h1 : noIU x)
    (h2 : ∀ a, noIU (f a)) : noIU (x >>= f) := by
  cases x with
  | error e =>
    rw [error_bind]
    cases e <;> trivial
  | ok a => rw [ok_bind]; exact h2 a

theorem noIU_ite {α : Type} (c : Prop) [Decidable c]
    {x y : Except ClassFileError α} (hx : noIU x) (hy : noIU y) :
    noIU (if c then x else y) := by
  by_cases h : c
  · rwa [if_pos h]
  · rwa [if_neg h]

theorem noIU_read_u1 (r : Reader) : noIU r.read_u1 := by
  unfold Reader.read_u1
  split <;> trivial

theorem noIU_read_u2 (r : Reader) : noIU r.read_u2 := by
  unfold Reader.read_u2
  split <;> trivial

theorem noIU_read_u4 (r : Reader) : noIU r.read_u4 := by
  unfold Reader.read_u4
  split <;> trivial

theorem noIU_read_bytes (r : Reader) (len : Nat) : noIU (r.read_bytes len) := by
  unfold Reader.read_bytes
  split <;> trivial

theorem noIU_get (cp : ConstantPool) (index : Nat) : noIU (cp.get index) := by
  cases hg : cp.get index with
  | error e =>
    have h := get_error_kind hg
    subst h
    trivial
  | ok v => trivial

theorem noIU_get_utf8 (cp : ConstantPool) (index : Nat) :
    noIU (cp.get_utf8 index) := by
  cases hg : cp.get_utf8 index with
  | error e =>
    have h := get_utf8_error_kind_aux hg
    subst h
    trivial
  | ok v => trivial

theorem noIU_readCount {α : Type}
    (p : Reader → Except ClassFileError (α × Reader))
    (hp : ∀ r, noIU (p r)) : ∀ n r, noIU (readCount p n r) := by
  intro n
  induction n with
  | zero => intro r; trivial
  | succ n ih =>
    intro r
    simp only [readCount]
    apply noIU_bind (hp r)
    rintro ⟨x, r1⟩
    apply noIU_bind (ih r1)
    rintro ⟨xs, r2⟩
    trivial

theorem noIU_pvti (r : Reader) : noIU (parse_verification_type_info r) := by
  unfold parse_verification_type_info
  apply noIU_bind (noIU_read_u1 r)
  rintro ⟨tag, r1⟩
  repeat'
    first
    | exact trivial
    | exact noIU_read_u2 _
    | apply noIU_ite
    | apply noIU_bind
    | rintro ⟨a, b⟩

set_option maxRecDepth 2000 in
theorem noIU_frame (frame_type : Nat) (r : Reader) :
    noIU (parseStackMapFrame frame_type r) := by
  unfold parseStackMapFrame
  repeat'
    first
    | exact trivial
    | exact noIU_read_u2 _
    | exact noIU_pvti _
    | exact noIU_readCount _ noIU_pvti _ _
    | apply noIU_ite
    | apply noIU_bind
    | rintro ⟨a, b⟩

theorem noIU_smt (r : Reader) : noIU (parse_stack_map_table r) := by
  unfold parse_stack_map_table
  apply noIU_bind (noIU_read_u2 r)
  rintro ⟨num, r1⟩
  apply noIU_bind
  · apply noIU_readCount
    intro rr
    apply noIU_bind (noIU_read_u1 rr)
    rintro ⟨ft, rr1⟩
    exact noIU_frame ft rr1
  · rintro ⟨entries, r2⟩
    trivial

theorem noIU_type_path (r : Reader) : noIU (parse_type_path r) := by
  unfold parse_type_path
  apply noIU_bind (noIU_read_u1 r)
  rintro ⟨n, r1⟩
  apply noIU_readCount
  intro rr
  repeat'
    first
    | exact trivial
    | exact noIU_read_u1 _
    | apply noIU_bind
    | rintro ⟨a, b⟩

theorem noIU_lvtarget (r : Reader) : noIU (parseLocalVarTarget r) := by
  unfold parseLocalVarTarget
  repeat'
    first
    | exact trivial
    | exact noIU_read_u2 _
    | apply noIU_bind
    | rintro ⟨a, b⟩

theorem noIU_target_info (r : Reader) (target_type : Nat) :
    noIU (parse_target_info r target_type) := by
  unfold parse_target_info
  repeat'
    first
    | exact trivial
    | exact noIU_read_u1 _
    | exact noIU_read_u2 _
    | exact noIU_readCount _ noIU_lvtarget _ _
    | apply noIU_ite
    | apply noIU_bind
    | rintro ⟨a, b⟩

theorem noIU_module_requires (r : Reader) : noIU (parseModuleRequires r) := by
  unfold parseModuleRequires
  repeat'
    first
    | exact trivial
    | exact noIU_read_u2 _
    | apply noIU_bind
    | rintro ⟨a, b⟩

theorem noIU_module_exports (r : Reader) : noIU (parseModuleExports r) := by
  unfold parseModuleExports
  repeat'
    first
    | exact trivial
    | exact noIU_read_u2 _
    | exact noIU_readCount _ noIU_read_u2 _ _
    | apply noIU_bind
    | rintro ⟨a, b⟩

theorem noIU_module_opens (r : Reader) : noIU (parseModuleOpens r) := by
  unfold parseModuleOpens
  repeat'
    first
    | exact trivial
    | exact noIU_read_u2 _
    | exact noIU_readCount _ noIU_read_u2 _ _
    | apply noIU_bind
    | rintro ⟨a, b⟩

theorem noIU_module_provides (r : Reader) : noIU (parseModuleProvides r) := by
  unfold parseModuleProvides
  repeat'
    first
    | exact trivial
    | exact noIU_read_u2 _
    | exact noIU_readCount _ noIU_read_u2 _ _
    | apply noIU_bind
    | rintro ⟨a, b⟩

theorem noIU_module (r : Reader) : noIU (parse_module_attribute r) := by
  unfold parse_module_attribute
  repeat'
    first
    | exact trivial
    | exact noIU_read_u2 _
    | exact noIU_readCount _ noIU_read_u2 _ _
    | exact noIU_readCount _ noIU_module_requires _ _
    | exact noIU_readCount _ noIU_module_exports _ _
    | exact noIU_readCount _ noIU_module_opens _ _
    | exact noIU_readCount _ noIU_module_provides _ _
    | apply noIU_bind
    | rintro ⟨a, b⟩

theorem noIU_exception_entry (r : Reader) :
    noIU (parseExceptionTableEntry r) := by
  unfold parseExceptionTableEntry
  repeat'
    first
    | exact trivial
    | exact noIU_read_u2 _
    | apply noIU_bind
    | rintro ⟨a, b⟩

theorem noIU_inner_class (r : Reader) : noIU (parseInnerClassInfo r) := by
  unfold parseInnerClassInfo
  repeat'
    first
    | exact trivial
    | exact noIU_read_u2 _
    | apply noIU_bind
    | rintro ⟨a, b⟩

theorem noIU_line_number (r : Reader) : noIU (parseLineNumberEntry r) := by
  unfold parseLineNumberEntry
  repeat'
    first
    | exact trivial
    | exact noIU_read_u2 _
    | apply noIU_bind
    | rintro ⟨a, b⟩

theorem noIU_lvt_entry (r : Reader) :
    noIU (parseLocalVariableTableEntry r) := by
  unfold parseLocalVariableTableEntry
  repeat'
    first
    | exact trivial
    | exact noIU_read_u2 _
    | apply noIU_bind
    | rintro ⟨a, b⟩

theorem noIU_lvtt_entry (r : Reader) :
    noIU (parseLocalVariableTypeTableEntry r) := by
  unfold parseLocalVariableTypeTableEntry
  repeat'
    first
    | exact trivial
    | exact noIU_read_u2 _
    | apply noIU_bind
    | rintro ⟨a, b⟩

theorem noIU_bootstrap (r : Reader) : noIU (parseBootstrapMethod r) := by
  unfold parseBootstrapMethod
  repeat'
    first
    | exact trivial
    | exact noIU_read_u2 _
    | exact noIU_readCount _ noIU_read_u2 _ _
    | apply noIU_bind
    | rintro ⟨a, b⟩

theorem noIU_method_param (r : Reader) : noIU (parseMethodParameter r) := by
  unfold parseMethodParameter
  repeat'
    first
    | exact trivial
    | exact noIU_read_u2 _
    | apply noIU_bind
    | rintro ⟨a, b⟩

theorem noIU_module_hash (r : Reader) : noIU (parseModuleHash r) := by
  unfold parseModuleHash
  repeat'
    first
    | exact trivial
    | exact noIU_read_u2 _
    | exact noIU_read_bytes _ _
    | apply noIU_bind
    | rintro ⟨a, b⟩

theorem noIU_parseCpEntries :
    ∀ n r count i entries, count - i ≤ n →
      noIU (parseCpEntries r count i entries) := by
  intro n
  induction n with
  | zero =>
    intro r count i entries hn
    rw [parseCpEntries.eq_def, dif_neg (by omega)]
    trivial
  | succ n ih =>
    intro r count i entries hn
    rw [parseCpEntries.eq_def]
    by_cases hic : i < count
    case neg =>
      rw [dif_neg hic]
      trivial
    rw [dif_pos hic]
    apply noIU_bind (noIU_read_u1 r)
    rintro ⟨tag, r1⟩
    repeat'
      first
      | exact trivial
      | exact ih _ _ _ _ (by omega)
      | exact noIU_read_u1 _
      | exact noIU_read_u2 _
      | exact noIU_read_u4 _
      | exact noIU_read_bytes _ _
      | apply noIU_ite
      | apply noIU_bind
      | rintro ⟨a, b⟩

theorem noIU_parse_constant_pool (r : Reader) :
    noIU (parse_constant_pool r) := by
  unfold parse_constant_pool
  apply noIU_bind (noIU_read_u2 r)
  rintro ⟨count, r1⟩
  apply noIU_bind (noIU_parseCpEntries (count - 1) r1 count 1 [none] (by omega))
  rintro ⟨entries, r2⟩
  trivial

set_option maxHeartbeats 4000000 in
set_option maxRecDepth 4000 in
/-- No function of the recursive attribute/annotation group ever
returns `InvalidUtf8`, at any fuel. -/
theorem noIU_fueled : ∀ fuel : Nat,
    (∀ r, noIU (parse_element_value fuel r)) ∧
    (∀ n r, noIU (parseElementValues fuel n r)) ∧
    (∀ r, noIU (parse_annotation_item fuel r)) ∧
    (∀ n r, noIU (parseEVPairs fuel n r)) ∧
    (∀ n r, noIU (parseAnnotationList fuel n r)) ∧
    (∀ r, noIU (parse_annotations fuel r)) ∧
    (∀ n r, noIU (parseParamAnnList fuel n r)) ∧
    (∀ r, noIU (parse_parameter_annotations fuel r)) ∧
    (∀ n r, noIU (parseTypeAnnotationList fuel n r)) ∧
    (∀ r, noIU (parse_type_annotations fuel r)) ∧
    (∀ cp n r, noIU (parseRecordComponents fuel cp n r)) ∧
    (∀ cp r, noIU (parse_code_attribute fuel cp r)) ∧
    (∀ cp name sub, noIU (attrDispatch fuel cp name sub)) ∧
    (∀ cp r, noIU (parseOneAttr fuel cp r)) ∧
    (∀ cp n r, noIU (parseAttrsLoop fuel cp n r)) ∧
    (∀ cp r, noIU (parse_attributes fuel cp r)) := by
  intro fuel
  induction fuel with
  | zero =>
    refine ⟨fun r => ?_, fun n r => ?_, fun r => ?_, fun n r => ?_,
      fun n r => ?_, fun r => ?_, fun n r => ?_, fun r => ?_, fun n r => ?_,
      fun r => ?_, fun cp n r => ?_, fun cp r => ?_, fun cp name sub => ?_,
      fun cp r => ?_, fun cp n r => ?_, fun cp r => ?_⟩
    · rw [parse_element_value.eq_def]; trivial
    · rw [parseElementValues.eq_def]; trivial
    · rw [parse_annotation_item.eq_def]; trivial
    · rw [parseEVPairs.eq_def]; trivial
    · rw [parseAnnotationList.eq_def]; trivial
    · rw [parse_annotations.eq_def]; trivial
    · rw [parseParamAnnList.eq_def]; trivial
    · rw [parse_parameter_annotations.eq_def]; trivial
    · rw [parseTypeAnnotationList.eq_def]; trivial
    · rw [parse_type_annotations.eq_def]; trivial
    · rw [parseRecordComponents.eq_def]; trivial
    · rw [parse_code_attribute.eq_def]; trivial
    · rw [attrDispatch.eq_def]; trivial
    · rw [parseOneAttr.eq_def]; trivial
    · rw [parseAttrsLoop.eq_def]; trivial
    · rw [parse_attributes.eq_def]; trivial
  | succ fuel ih =>
    obtain ⟨ih_ev, ih_evs, ih_ann, ih_pairs, ih_alist, ih_anns, ih_palist,
      ih_pann, ih_talist, ih_tann, ih_rec, ih_code, ih_disp, ih_one,
      ih_aloop, ih_attrs⟩ := ih
    refine ⟨fun r => ?_, fun n r => ?_, fun r => ?_, fun n r => ?_,
      fun n r => ?_, fun r => ?_, fun n r => ?_, fun r => ?_, fun n r => ?_,
      fun r => ?_, fun cp n r => ?_, fun cp r => ?_, fun cp name sub => ?_,
      fun cp r => ?_, fun cp n r => ?_, fun cp r => ?_⟩
    · rw [parse_element_value.eq_def]
      repeat'
        first
        | exact trivial
        | exact ih_ann _
        | exact ih_evs _ _
        | exact noIU_read_u1 _
        | exact noIU_read_u2 _
        | apply noIU_ite
        | apply noIU_bind
        | rintro ⟨a, b⟩
    · rw [parseElementValues.eq_def]
      cases n with
      | zero => trivial
      | succ n =>
        repeat'
          first
          | exact trivial
          | exact ih_ev _
          | exact ih_evs _ _
          | apply noIU_bind
          | rintro ⟨a, b⟩
    · rw [parse_annotation_item.eq_def]
      repeat'
        first
        | exact trivial
        | exact ih_pairs _ _
        | exact noIU_read_u2 _
        | apply noIU_bind
        | rintro ⟨a, b⟩
    · rw [parseEVPairs.eq_def]
      cases n with
      | zero => trivial
      | succ n =>
        repeat'
          first
          | exact trivial
          | exact ih_ev _
          | exact ih_pairs _ _
          | exact noIU_read_u2 _
          | apply noIU_bind
          | rintro ⟨a, b⟩
    · rw [parseAnnotationList.eq_def]
      cases n with
      | zero => trivial
      | succ n =>
        repeat'
          first
          | exact trivial
          | exact ih_ann _
          | exact ih_alist _ _
          | apply noIU_bind
          | rintro ⟨a, b⟩
    · rw [parse_annotations.eq_def]
      repeat'
        first
        | exact trivial
        | exact ih_alist _ _
        | exact noIU_read_u2 _
        | apply noIU_bind
        | rintro ⟨a, b⟩
    · rw [parseParamAnnList.eq_def]
      cases n with
      | zero => trivial
      | succ n =>
        repeat'
          first
          | exact trivial
          | exact ih_alist _ _
          | exact ih_palist _ _
          | exact noIU_read_u2 _
          | apply noIU_bind
          | rintro ⟨a, b⟩
    · rw [parse_parameter_annotations.eq_def]
      repeat'
        first
        | exact trivial
        | exact ih_palist _ _
        | exact noIU_read_u1 _
        | apply noIU_bind
        | rintro ⟨a, b⟩
    · rw [parseTypeAnnotationList.eq_def]
      cases n with
      | zero => trivial
      | succ n =>
        repeat'
          first
          | exact trivial
          | exact ih_pairs _ _
          | exact ih_talist _ _
          | exact noIU_read_u1 _
          | exact noIU_read_u2 _
          | exact noIU_target_info _ _
          | exact noIU_type_path _
          | apply noIU_bind
          | rintro ⟨a, b⟩
    · rw [parse_type_annotations.eq_def]
      repeat'
        first
        | exact trivial
        | exact ih_talist _ _
        | exact noIU_read_u2 _
        | apply noIU_bind
        | rintro ⟨a, b⟩
    · rw [parseRecordComponents.eq_def]
      cases n with
      | zero => trivial
      | succ n =>
        repeat'
          first
          | exact trivial
          | exact ih_attrs _ _
          | exact ih_rec _ _ _
          | exact noIU_read_u2 _
          | apply noIU_bind
          | rintro ⟨a, b⟩
    · rw [parse_code_attribute.eq_def]
      repeat'
        first
        | exact trivial
        | exact ih_attrs _ _
        | exact noIU_read_u2 _
        | exact noIU_read_u4 _
        | exact noIU_read_bytes _ _
        | exact noIU_readCount _ noIU_exception_entry _ _
        | apply noIU_bind
        | rintro ⟨a, b⟩
    · rw [attrDispatch.eq_def]
      repeat'
        first
        | exact trivial
        | exact ih_ev _
        | exact ih_anns _
        | exact ih_pann _
        | exact ih_tann _
        | exact ih_rec _ _ _
        | exact ih_code _ _
        | exact noIU_read_u1 _
        | exact noIU_read_u2 _
        | exact noIU_read_bytes _ _
        | exact noIU_smt _
        | exact noIU_module _
        | exact noIU_readCount _ noIU_read_u2 _ _
        | exact noIU_readCount _ noIU_inner_class _ _
        | exact noIU_readCount _ noIU_line_number _ _
        | exact noIU_readCount _ noIU_lvt_entry _ _
        | exact noIU_readCount _ noIU_lvtt_entry _ _
        | exact noIU_readCount _ noIU_bootstrap _ _
        | exact noIU_readCount _ noIU_method_param _ _
        | exact noIU_readCount _ noIU_module_hash _ _
        | apply noIU_ite
        | apply noIU_bind
        | rintro ⟨a, b⟩
    · rw [parseOneAttr.eq_def]
      apply noIU_bind (noIU_read_u2 _)
      rintro ⟨ni, r1⟩
      apply noIU_bind (noIU_read_u4 _)
      rintro ⟨len, r2⟩
      apply noIU_bind (noIU_get_utf8 _ _)
      intro name
      apply noIU_bind (noIU_read_bytes _ _)
      rintro ⟨bs, r3⟩
      apply noIU_bind (ih_disp _ _ _)
      rintro ⟨attr, s1⟩
      apply noIU_ite
      · cases attr <;> try trivial
        all_goals
          cases hg : ConstantPool.get_utf8 cp ni with
          | error e =>
            have h := get_utf8_error_kind_aux hg
            subst h
            trivial
          | ok n2 => trivial
      · trivial
    · rw [parseAttrsLoop.eq_def]
      cases n with
      | zero => trivial
      | succ n =>
        repeat'
          first
          | exact trivial
          | exact ih_one _ _
          | exact ih_aloop _ _ _
          | apply noIU_bind
          | rintro ⟨a, b⟩
    · rw [parse_attributes.eq_def]
      repeat'
        first
        | exact trivial
        | exact ih_aloop _ _ _
        | exact noIU_read_u2 _
        | apply noIU_bind
        | rintro ⟨a, b⟩

theorem noIU_parse_attributes (fuel : Nat) (cp : ConstantPool) (r : Reader) :
    noIU (parse_attributes fuel cp r) :=
  (noIU_fueled fuel).2.2.2.2.2.2.2.2.2.2.2.2.2.2.2 cp r

theorem noIU_parse_field (fuel : Nat) (cp : ConstantPool) (r : Reader) :
    noIU (parse_field fuel cp r) := by
  unfold parse_field
  repeat'
    first
    | exact trivial
    | exact noIU_read_u2 _
    | exact noIU_parse_attributes _ _ _
    | apply noIU_bind
    | rintro ⟨a, b⟩

theorem noIU_parse_method (fuel : Nat) (cp : ConstantPool) (r : Reader) :
    noIU (parse_method fuel cp r) := by
  unfold parse_method
  repeat'
    first
    | exact trivial
    | exact noIU_read_u2 _
    | exact noIU_parse_attributes _ _ _
    | apply noIU_bind
    | rintro ⟨a, b⟩

theorem noIU_classfile_parse (bytes : List Nat) :
    noIU (ClassFile.parse bytes) := by
  unfold ClassFile.parse
  repeat'
    first
    | exact trivial
    | exact noIU_read_u2 _
    | exact noIU_read_u4 _
    | exact noIU_parse_constant_pool _
    | exact noIU_parse_attributes _ _ _
    | exact noIU_readCount _ noIU_read_u2 _ _
    | exact noIU_readCount _ (noIU_parse_field _ _) _ _
    | exact noIU_readCount _ (noIU_parse_method _ _) _ _
    | apply noIU_ite
    | apply noIU_bind
    | rintro ⟨a, b⟩

/-- C8: the deliberate leniency of the Utf8 constant decode.  First
conjunct: `ClassFile::parse` never returns `InvalidUtf8`, on any input
whatsoever — invalid UTF-8 byte sequences cannot fail the decode.
Second conjunct: the tag-1 branch of the constant-pool loop reads a u2
length and exactly that many bytes, stores their lossy decoding
`utf8Lossy`, and proceeds — the bytes' content can never produce an
error. -/
theorem no_invalid_utf8 :
    (∀ bytes, ClassFile.parse bytes ≠ .error .InvalidUtf8) ∧
    (∀ (r r1 r2 r3 : Reader) len bs count i entries, i < count →
      r.read_u1 = .ok (1, r1) → r1.read_u2 = .ok (len, r2) →
      r2.read_bytes len = .ok (bs, r3) →
      parseCpEntries r count i entries =
        parseCpEntries r3 count (i + 1)
          (entries ++ [some (.Utf8 (utf8Lossy bs))])) := by
  constructor
  · exact fun bytes => noIU_ne (noIU_classfile_parse bytes)
  · intro r r1 r2 r3 len bs count i entries hi hr h2 hb
    rw [parseCpEntries.eq_def, dif_pos hi]
    simp [hr, h2, hb, ok_bind]

/-- C8 witness: the empty buffer does not fail with `InvalidUtf8` (it
fails with `UnexpectedEof`), and a concrete tag-1 step with payload
`[0x41]` stores `Utf8 "A"` via the lossy decode. -/
theorem no_invalid_utf8_witness :
    ClassFile.parse [] ≠ .error .InvalidUtf8 ∧
    parseCpEntries ⟨[1, 0, 1, 65], 0⟩ 2 1 [none] =
      parseCpEntries ⟨[1, 0, 1, 65], 4⟩ 2 (1 + 1)
        ([none] ++ [some (.Utf8 (utf8Lossy [65]))]) :=
  ⟨no_invalid_utf8.1 [],
   no_invalid_utf8.2 ⟨[1, 0, 1, 65], 0⟩ ⟨[1, 0, 1, 65], 1⟩
     ⟨[1, 0, 1, 65], 3⟩ ⟨[1, 0, 1, 65], 4⟩ 1 [65] 2 1 [none]
     (by decide) rfl rfl rfl⟩

end Jvmti
